import Mathlib

/-!
Verification of the Euro-Market spreadsheet-to-Shopify sync script
(`src/script.js`) against its natural-language specification.

The script is a Google Apps Script.  Cells of the spreadsheet are JavaScript
values (strings, numbers, booleans, `null`/`undefined`); we embed them as the
inductive type `Value`.  The pure core of the script — `mapRowToProduct`,
`isValidProduct`, the response classification of `createShopifyProduct`, and
the row loop of `checkForNewProducts` — is translated into executable Lean
functions.  External effects (the HTTP fetch, exceptions thrown by platform
calls, the wall clock) are passed in explicitly as oracle arguments.
-/

/-- A JavaScript cell value as returned by `getValues()`.  `null` stands for
both JS `null` and `undefined` (both are falsy, both stringify to the empty
string under `Array.prototype.join`); `nan` is the JS number `NaN`. -/
inductive Value where
  | str (s : String)
  | num (n : Int)
  | bool (b : Bool)
  | nan
  | null
deriving DecidableEq, Repr

/-- JS `ToString` of a cell value (the `value.toString()` calls in the
mapper; never reached on `null` in the script because falsy values are
skipped first). -/
def Value.toStr : Value → String
  | .str s => s
  | .num n => toString n
  | .bool b => if b then "true" else "false"
  | .nan => "NaN"
  | .null => "null"

/-- JS falsiness of a cell value: `""`, `0`, `NaN`, `false`, `null`,
`undefined` are falsy. -/
def Value.isFalsy : Value → Bool
  | .str s => s == ""
  | .num n => n == 0
  | .bool b => !b
  | .nan => true
  | .null => true

/-- JS strict equality `value === 0` (with the number `0`). -/
def Value.isZero : Value → Bool
  | .num n => n == 0
  | _ => false

/-- A value survives the mapper's skip guard `if (!value && value !== 0) return;`
exactly when it is truthy or it is the number `0`. -/
def Value.isMapped (v : Value) : Bool := !(v.isFalsy && !v.isZero)

/-- The string a cell contributes to `rowData.join('')`: JS `join` renders
`null`/`undefined` as the empty string and everything else via `ToString`. -/
def Value.joinStr : Value → String
  | .null => ""
  | v => v.toStr

/-- An ASCII whitespace character (the whitespace JS `trim` strips from the
header and image strings appearing here). -/
def isWsChar (c : Char) : Bool := c == ' ' || c == '\t' || c == '\n' || c == '\r'

/-- JS `toLowerCase()` (ASCII case mapping), kernel-reducible. -/
def lowerStr (s : String) : String := String.mk (s.toList.map Char.toLower)

/-- JS `trim()`, kernel-reducible: strip whitespace from both ends. -/
def trimStr (s : String) : String :=
  String.mk (((s.toList.dropWhile isWsChar).reverse.dropWhile isWsChar).reverse)

/-- Header normalization `header.toString().toLowerCase().trim()`. -/
def normHeader (header : Value) : String := trimStr (lowerStr header.toStr)

/-- Digit run at the front of a character list. -/
def leadDigits (cs : List Char) : List Char := cs.takeWhile Char.isDigit

/-- Value of a digit run, most significant first. -/
def digitsVal (cs : List Char) : Nat := cs.foldl (fun acc c => acc * 10 + (c.toNat - 48)) 0

/-- Split an optional leading sign, returning the sign as `1` or `-1`. -/
def splitSign : List Char → Int × List Char
  | '-' :: r => (-1, r)
  | '+' :: r => (1, r)
  | r => (1, r)

/-- Leading-whitespace stripper used by JS `parseInt`/`parseFloat`. -/
def dropWs (cs : List Char) : List Char :=
  cs.dropWhile (fun c => c == ' ' || c == '\t' || c == '\n' || c == '\r')

/-- JS `parseInt(value)` on the decimal fragment of its string coercion:
skip whitespace, optional sign, then a non-empty run of decimal digits;
`none` models the `NaN` result. -/
def jsParseInt (v : Value) : Option Int :=
  let cs := dropWs v.toStr.toList
  let sr := splitSign cs
  let ds := leadDigits sr.2
  if ds.isEmpty then none else some (sr.1 * (digitsVal ds : Int))

/-- JS `parseFloat(value)` on decimal fragments `[sign] digits [. digits]`;
`none` models the `NaN` result. -/
def jsParseFloat (v : Value) : Option Rat :=
  let cs := dropWs v.toStr.toList
  let sr := splitSign cs
  let ip := leadDigits sr.2
  let rest := sr.2.dropWhile Char.isDigit
  match rest with
  | '.' :: r =>
    let fp := leadDigits r
    if ip.isEmpty && fp.isEmpty then none
    else some ((sr.1 : Rat) * ((digitsVal ip : Rat) + (digitsVal fp : Rat) / ((10 : Rat) ^ fp.length)))
  | _ => if ip.isEmpty then none else some ((sr.1 : Rat) * (digitsVal ip : Rat))

/-- One `{name, values}` entry of the product's `options` array. -/
structure ProductOption where
  name : String
  values : List String
deriving DecidableEq, Repr

/-- One `{src}` entry of the product's `images` array. -/
structure ProductImage where
  src : String
deriving DecidableEq, Repr

/-- The single variant object the script populates (`product.variants[0]`).
Absent JS properties are `none`. -/
structure Variant where
  sku : Option String := none
  barcode : Option String := none
  price : Option String := none
  compare_at_price : Option String := none
  cost : Option String := none
  inventory_quantity : Option Int := none
  weight : Option Rat := none
  weight_unit : Option Value := none
  option1 : Option String := none
  option2 : Option String := none
deriving DecidableEq, Repr

/-- The normalized Shopify product built by `mapRowToProduct`.  The script
initializes `variants: [{}]` and only ever touches index 0; we keep the list
to mirror the source.  Absent JS properties are `none` (note JS distinguishes
an absent `options` array from a present one: an empty array is truthy). -/
structure Product where
  title : Option Value := none
  body_html : Option Value := none
  vendor : Option Value := none
  product_type : Option Value := none
  tags : Option Value := none
  published : Option Bool := none
  options : Option (List ProductOption) := none
  images : Option (List ProductImage) := none
  variants : List Variant := [{}]
deriving DecidableEq, Repr

/-- One iteration of the `headers.forEach` body of `mapRowToProduct`
(src/script.js lines 129-248): the falsy-skip guard followed by the
`switch (headerLower)` dispatch. -/
def applyHeader (product : Product) (header value : Value) : Product :=
  if value.isFalsy && !value.isZero then product else
  match normHeader header with
  | "title" | "product name" | "name" =>
      { product with title := some value }
  | "description" | "body" | "body_html" =>
      { product with body_html := some value }
  | "vendor" | "brand" | "manufacturer" =>
      { product with vendor := some value }
  | "product type" | "type" | "category" =>
      { product with product_type := some value }
  | "tags" | "keywords" =>
      { product with tags := some value }
  | "published" | "status" =>
      let b := (value == Value.bool true || value == Value.str "true" ||
                value == Value.str "yes" || value == Value.str "published")
      { product with published := some b }
  | "sku" | "product code" =>
      let vs := product.variants.modifyHead (fun w => { w with sku := some value.toStr })
      { product with variants := vs }
  | "barcode" | "upc" | "ean" | "isbn" | "gtin" =>
      let vs := product.variants.modifyHead (fun w => { w with barcode := some value.toStr })
      { product with variants := vs }
  | "price" | "retail price" =>
      let vs := product.variants.modifyHead (fun w => { w with price := some value.toStr })
      { product with variants := vs }
  | "compare at price" | "compare price" | "msrp" =>
      let vs := product.variants.modifyHead (fun w => { w with compare_at_price := some value.toStr })
      { product with variants := vs }
  | "cost" | "cost price" =>
      let vs := product.variants.modifyHead (fun w => { w with cost := some value.toStr })
      { product with variants := vs }
  | "inventory" | "quantity" | "stock" =>
      let vs := product.variants.modifyHead (fun w => { w with inventory_quantity := some ((jsParseInt value).getD 0) })
      { product with variants := vs }
  | "weight" =>
      let vs := product.variants.modifyHead (fun w => { w with weight := some ((jsParseFloat value).getD 0) })
      { product with variants := vs }
  | "weight unit" =>
      let vs := product.variants.modifyHead (fun w => { w with weight_unit := some value })
      { product with variants := vs }
  | "option1" | "size" =>
      let vs := product.variants.modifyHead (fun w => { w with option1 := some value.toStr })
      let p := { product with variants := vs }
      match p.options with
      | none => { p with options := some [⟨"Size", [value.toStr]⟩] }
      | some _ => p
  | "option2" | "color" =>
      let vs := product.variants.modifyHead (fun w => { w with option2 := some value.toStr })
      let p := { product with variants := vs }
      let p2 := match p.options with
        | none => { p with options := some [⟨"Size", ["Default"]⟩] }
        | some _ => p
      match p2.options with
      | some opts =>
          if opts.length < 2 then { p2 with options := some (opts ++ [⟨"Color", [value.toStr]⟩]) }
          else p2
      | none => p2
  | "image" | "image url" | "product image" =>
      if !value.isFalsy && trimStr value.toStr != "" then
        { product with images := some [⟨trimStr value.toStr⟩] }
      else product
  | _ => product

/-- `mapRowToProduct(headers, rowData)` (src/script.js lines 123-251): fold
the per-column dispatch over the header row in column order; a column beyond
the end of `rowData` reads JS `undefined`. -/
def mapRowToProduct (headers rowData : List Value) : Product :=
  headers.enum.foldl (fun p hi => applyHeader p hi.2 (rowData.getD hi.1 .null)) {}

/-- `isValidProduct` (src/script.js lines 258-261): `!!product.title`. -/
def isValidProduct (product : Product) : Bool :=
  match product.title with
  | none => false
  | some v => !v.isFalsy

/-- A product object found in the parsed JSON response body. -/
structure RemoteProduct where
  id : Int
deriving DecidableEq, Repr

/-- The parsed JSON response body of the create call: whether it has a
truthy top-level `product` object, and its raw text for the error message
(`JSON.stringify(responseBody)`). -/
structure ResponseBody where
  product : Option RemoteProduct
  raw : String
deriving DecidableEq, Repr

/-- Result of the `UrlFetchApp.fetch` + `JSON.parse` pair: either a response
with an HTTP code and a parsed body, or a thrown exception (transport or
parse failure), stringified. -/
inductive FetchOutcome where
  | ok (code : Int) (body : ResponseBody)
  | thrown (msg : String)
deriving DecidableEq, Repr

/-- The structured result of `createShopifyProduct`. -/
inductive CreateResult where
  | success (id : Int) (data : RemoteProduct)
  | failure (error : String)
deriving DecidableEq, Repr

/-- `createShopifyProduct` (src/script.js lines 268-307), with the network
passed in as the `fetch` oracle: 2xx plus a `product` object in the body is
success; otherwise the `API Error` string; a thrown exception is caught and
stringified. -/
def createShopifyProduct (fetch : FetchOutcome) : CreateResult :=
  match fetch with
  | .thrown msg => .failure msg
  | .ok code body =>
    if 200 ≤ code ∧ code < 300 then
      match body.product with
      | some rp => .success rp.id rp
      | none => .failure ("API Error (" ++ toString code ++ "): " ++ body.raw)
    else .failure ("API Error (" ++ toString code ++ "): " ++ body.raw)

/-- The empty-row test `rowData.join('').trim() === ''` of the sync loop. -/
def rowIsEmpty (rowData : List Value) : Bool :=
  trimStr (String.join (rowData.map Value.joinStr)) == ""

/-- The external events one row's processing can meet: the outcome of its
remote fetch, or a JS exception raised inside the `try` block before the
remote call (e.g. by a platform call during mapping), which the row-level
`catch` stringifies. -/
inductive RowEvent where
  | fetch (outcome : FetchOutcome)
  | raise (msg : String)

/-- What processing one row produced: the status string written to the
outcome column (none for skipped empty rows), and whether the remote
create call was made. -/
structure RowResult where
  write : Option String
  remoteCalled : Bool
deriving DecidableEq, Repr

/-- The body of the row loop of `checkForNewProducts` (src/script.js lines
71-108) for one row: skip empty rows, map, validate, create remotely,
record the outcome; exceptions are caught at the row boundary. -/
def processRow (headers rowData : List Value) (ev : RowEvent) (now : String)
    (rowIndex : Nat) : RowResult :=
  if rowIsEmpty rowData then ⟨none, false⟩
  else match ev with
  | .raise msg => ⟨some ("ERROR: " ++ msg), false⟩
  | .fetch f =>
    let product := mapRowToProduct headers rowData
    if !isValidProduct product then
      ⟨some ("ERROR: " ++ ("Row " ++ toString rowIndex ++
        ": Invalid product data (missing required fields)")), false⟩
    else
      match createShopifyProduct f with
      | .success id _ => ⟨some ("Synced: " ++ now ++ " (ID: " ++ toString id ++ ")"), true⟩
      | .failure err => ⟨some ("ERROR: " ++ err), true⟩

/-- The observable result of one pass of `checkForNewProducts`: the new
watermark stored in `lastProcessedRow`, the status strings written to the
outcome column (row number, text), and the rows for which a remote create
call was issued. -/
structure PassResult where
  newWatermark : Nat
  writes : List (Nat × String)
  calledRows : List Nat
deriving DecidableEq, Repr

/-- The row numbers `watermark+1, ..., lastRow` visited by the loop. -/
def rowRange (watermark lastRow : Nat) : List Nat :=
  (List.range (lastRow - watermark)).map (fun k => watermark + 1 + k)

/-- `checkForNewProducts` (src/script.js lines 51-115) over an explicit
sheet snapshot `data` (all rows, headers first; `getLastDataRow` is
`data.length`), the stored watermark, the per-row event oracle `env`, and
the formatted current time `now`.  Row `r` of the sheet is `data[r-1]`. -/
def checkForNewProducts (data : List (List Value)) (watermark : Nat)
    (env : Nat → RowEvent) (now : String) : PassResult :=
  let headers := data.headD []
  let currentLastRow := data.length
  if watermark < currentLastRow then
    { newWatermark := currentLastRow
      writes := (rowRange watermark currentLastRow).filterMap
        (fun r => (processRow headers (data.getD (r - 1) []) (env r) now r).write.map (fun s => (r, s)))
      calledRows := (rowRange watermark currentLastRow).filter
        (fun r => (processRow headers (data.getD (r - 1) []) (env r) now r).remoteCalled) }
  else
    { newWatermark := watermark, writes := [], calledRows := [] }

example : mapRowToProduct [.str "Title", .str "Size", .str "Color"]
    [.str "Shirt", .str "M", .str "Red"] =
    { title := some (.str "Shirt"),
      options := some [⟨"Size", ["M"]⟩, ⟨"Color", ["Red"]⟩],
      variants := [{ option1 := some "M", option2 := some "Red" }] } := by decide

example : jsParseFloat (.str "abc") = none := by decide
example : (jsParseFloat (.str "lots")).getD 0 = 0 := by decide
example : jsParseInt (.str "abc") = none := by decide
example : jsParseInt (.str " -42xyz") = some (-42) := by decide

/-- A mapped value fails the skip guard. -/
lemma skip_false {v : Value} (hm : v.isMapped = true) :
    (v.isFalsy && !v.isZero) = false := by
  cases hb : v.isFalsy <;> cases hz : v.isZero <;> simp_all [Value.isMapped]

/-- A falsy value other than the number `0` is skipped outright. -/
lemma applyHeader_skip {p : Product} {h v : Value} (hf : v.isFalsy = true)
    (hz : v.isZero = false) : applyHeader p h v = p := by
  simp [applyHeader, hf, hz]

lemma applyHeader_title {p : Product} {h v : Value} (hm : v.isMapped = true)
    (hh : normHeader h = "title" ∨ normHeader h = "product name" ∨ normHeader h = "name") :
    applyHeader p h v = { p with title := some v } := by
  have hs := skip_false hm
  rcases hh with hh | hh | hh <;> simp [applyHeader, hs, hh]

lemma applyHeader_published {p : Product} {h v : Value} (hm : v.isMapped = true)
    (hh : normHeader h = "published" ∨ normHeader h = "status") :
    applyHeader p h v = { p with published := some (v == Value.bool true || v == Value.str "true" || v == Value.str "yes" || v == Value.str "published") } := by
  have hs := skip_false hm
  rcases hh with hh | hh <;> simp [applyHeader, hs, hh]

lemma applyHeader_inventory {p : Product} {h v : Value} (hm : v.isMapped = true)
    (hh : normHeader h = "inventory" ∨ normHeader h = "quantity" ∨ normHeader h = "stock") :
    applyHeader p h v = { p with variants := p.variants.modifyHead (fun w => { w with inventory_quantity := some ((jsParseInt v).getD 0) }) } := by
  have hs := skip_false hm
  rcases hh with hh | hh | hh <;> simp [applyHeader, hs, hh]

lemma applyHeader_option1_none {p : Product} {h v : Value} (hm : v.isMapped = true)
    (hh : normHeader h = "option1" ∨ normHeader h = "size") (ho : p.options = none) :
    applyHeader p h v = { p with variants := p.variants.modifyHead (fun w => { w with option1 := some v.toStr }), options := some [⟨"Size", [v.toStr]⟩] } := by
  have hs := skip_false hm
  rcases hh with hh | hh <;> simp [applyHeader, hs, hh, ho]

lemma applyHeader_option1_some {p : Product} {h v : Value} {opts : List ProductOption}
    (hm : v.isMapped = true) (hh : normHeader h = "option1" ∨ normHeader h = "size")
    (ho : p.options = some opts) :
    applyHeader p h v = { p with variants := p.variants.modifyHead (fun w => { w with option1 := some v.toStr }) } := by
  have hs := skip_false hm
  rcases hh with hh | hh <;> simp [applyHeader, hs, hh, ho]

lemma applyHeader_body_html {p : Product} {h v : Value} (hm : v.isMapped = true)
    (hh : normHeader h = "description" ∨ normHeader h = "body" ∨ normHeader h = "body_html") :
    applyHeader p h v = { p with body_html := some v } := by
  have hs := skip_false hm
  rcases hh with hh | hh | hh <;> simp [applyHeader, hs, hh]


lemma applyHeader_vendor {p : Product} {h v : Value} (hm : v.isMapped = true)
    (hh : normHeader h = "vendor" ∨ normHeader h = "brand" ∨ normHeader h = "manufacturer") :
    applyHeader p h v = { p with vendor := some v } := by
  have hs := skip_false hm
  rcases hh with hh | hh | hh <;> simp [applyHeader, hs, hh]


lemma applyHeader_product_type {p : Product} {h v : Value} (hm : v.isMapped = true)
    (hh : normHeader h = "product type" ∨ normHeader h = "type" ∨ normHeader h = "category") :
    applyHeader p h v = { p with product_type := some v } := by
  have hs := skip_false hm
  rcases hh with hh | hh | hh <;> simp [applyHeader, hs, hh]


lemma applyHeader_tags {p : Product} {h v : Value} (hm : v.isMapped = true)
    (hh : normHeader h = "tags" ∨ normHeader h = "keywords") :
    applyHeader p h v = { p with tags := some v } := by
  have hs := skip_false hm
  rcases hh with hh | hh <;> simp [applyHeader, hs, hh]


lemma applyHeader_sku {p : Product} {h v : Value} (hm : v.isMapped = true)
    (hh : normHeader h = "sku" ∨ normHeader h = "product code") :
    applyHeader p h v = { p with variants := p.variants.modifyHead (fun w => { w with sku := some v.toStr }) } := by
  have hs := skip_false hm
  rcases hh with hh | hh <;> simp [applyHeader, hs, hh]


lemma applyHeader_barcode {p : Product} {h v : Value} (hm : v.isMapped = true)
    (hh : normHeader h = "barcode" ∨ normHeader h = "upc" ∨ normHeader h = "ean" ∨ normHeader h = "isbn" ∨ normHeader h = "gtin") :
    applyHeader p h v = { p with variants := p.variants.modifyHead (fun w => { w with barcode := some v.toStr }) } := by
  have hs := skip_false hm
  rcases hh with hh | hh | hh | hh | hh <;> simp [applyHeader, hs, hh]


lemma applyHeader_price {p : Product} {h v : Value} (hm : v.isMapped = true)
    (hh : normHeader h = "price" ∨ normHeader h = "retail price") :
    applyHeader p h v = { p with variants := p.variants.modifyHead (fun w => { w with price := some v.toStr }) } := by
  have hs := skip_false hm
  rcases hh with hh | hh <;> simp [applyHeader, hs, hh]


lemma applyHeader_compare_at_price {p : Product} {h v : Value} (hm : v.isMapped = true)
    (hh : normHeader h = "compare at price" ∨ normHeader h = "compare price" ∨ normHeader h = "msrp") :
    applyHeader p h v = { p with variants := p.variants.modifyHead (fun w => { w with compare_at_price := some v.toStr }) } := by
  have hs := skip_false hm
  rcases hh with hh | hh | hh <;> simp [applyHeader, hs, hh]


lemma applyHeader_cost {p : Product} {h v : Value} (hm : v.isMapped = true)
    (hh : normHeader h = "cost" ∨ normHeader h = "cost price") :
    applyHeader p h v = { p with variants := p.variants.modifyHead (fun w => { w with cost := some v.toStr }) } := by
  have hs := skip_false hm
  rcases hh with hh | hh <;> simp [applyHeader, hs, hh]


lemma applyHeader_weight {p : Product} {h v : Value} (hm : v.isMapped = true)
    (hh : normHeader h = "weight") :
    applyHeader p h v = { p with variants := p.variants.modifyHead (fun w => { w with weight := some ((jsParseFloat v).getD 0) }) } := by
  have hs := skip_false hm
  simp [applyHeader, hs, hh]


lemma applyHeader_weight_unit {p : Product} {h v : Value} (hm : v.isMapped = true)
    (hh : normHeader h = "weight unit") :
    applyHeader p h v = { p with variants := p.variants.modifyHead (fun w => { w with weight_unit := some v }) } := by
  have hs := skip_false hm
  simp [applyHeader, hs, hh]


lemma applyHeader_option2_none {p : Product} {h v : Value} (hm : v.isMapped = true)
    (hh : normHeader h = "option2" ∨ normHeader h = "color") (ho : p.options = none) :
    applyHeader p h v = { p with variants := p.variants.modifyHead (fun w => { w with option2 := some v.toStr }), options := some [⟨"Size", ["Default"]⟩, ⟨"Color", [v.toStr]⟩] } := by
  have hs := skip_false hm
  rcases hh with hh | hh <;> simp [applyHeader, hs, hh, ho]

lemma applyHeader_option2_some {p : Product} {h v : Value} {opts : List ProductOption}
    (hm : v.isMapped = true) (hh : normHeader h = "option2" ∨ normHeader h = "color")
    (ho : p.options = some opts) :
    applyHeader p h v = { p with variants := p.variants.modifyHead (fun w => { w with option2 := some v.toStr }), options := some (if opts.length < 2 then opts ++ [⟨"Color", [v.toStr]⟩] else opts) } := by
  have hs := skip_false hm
  rcases hh with hh | hh <;> by_cases hl : opts.length < 2 <;> simp [applyHeader, hs, hh, ho, hl]

lemma applyHeader_image {p : Product} {h v : Value} (hm : v.isMapped = true)
    (hh : normHeader h = "image" ∨ normHeader h = "image url" ∨ normHeader h = "product image")
    (ht : (!v.isFalsy && trimStr v.toStr != "") = true) :
    applyHeader p h v = { p with images := some [⟨trimStr v.toStr⟩] } := by
  have hs := skip_false hm
  rcases hh with hh | hh | hh <;> simp [applyHeader, hs, hh, ht]

/-- A two-column row maps by two successive dispatch steps. -/
lemma mapRow_pair (h1 h2 v1 v2 : Value) :
    mapRowToProduct [h1, h2] [v1, v2] =
      applyHeader (applyHeader {} h1 v1) h2 v2 := rfl

/-- The loop visits exactly the rows in `(watermark, currentLastRow]`. -/
lemma mem_rowRange {w L r : Nat} : r ∈ rowRange w L ↔ w < r ∧ r ≤ L := by
  simp only [rowRange, List.mem_map, List.mem_range]
  constructor
  · rintro ⟨k, hk, rfl⟩; omega
  · rintro ⟨h1, h2⟩; exact ⟨r - w - 1, by omega, by omega⟩

/-- With no new rows the pass is a no-op. -/
lemma check_noop {data : List (List Value)} {w : Nat} {env : Nat → RowEvent} {now : String}
    (h : data.length ≤ w) :
    checkForNewProducts data w env now = ⟨w, [], []⟩ := by
  simp [checkForNewProducts, Nat.not_lt.mpr h]

/-- With new rows present the watermark is set to the current last row. -/
lemma check_newWatermark {data : List (List Value)} {w : Nat} {env : Nat → RowEvent}
    {now : String} (h : w < data.length) :
    (checkForNewProducts data w env now).newWatermark = data.length := by
  simp [checkForNewProducts, h]

/-- Characterization of the status strings a pass writes. -/
lemma check_writes_mem {data : List (List Value)} {w : Nat} {env : Nat → RowEvent}
    {now : String} {r : Nat} {s : String} :
    (r, s) ∈ (checkForNewProducts data w env now).writes ↔
      (w < r ∧ r ≤ data.length ∧
       (processRow (data.headD []) (data.getD (r - 1) []) (env r) now r).write = some s) := by
  by_cases hw : w < data.length
  · simp only [checkForNewProducts, if_pos hw, List.mem_filterMap]
    constructor
    · rintro ⟨a, ha, hfa⟩
      rw [mem_rowRange] at ha
      rw [Option.map_eq_some'] at hfa
      obtain ⟨s', hs', heq⟩ := hfa
      obtain ⟨rfl, rfl⟩ : a = r ∧ s' = s := by
        refine ⟨congrArg Prod.fst heq, congrArg Prod.snd heq⟩
      exact ⟨ha.1, ha.2, hs'⟩
    · rintro ⟨h1, h2, h3⟩
      exact ⟨r, mem_rowRange.mpr ⟨h1, h2⟩, by rw [h3]; rfl⟩
  · rw [checkForNewProducts]
    simp only [if_neg hw]
    simp only [List.not_mem_nil, false_iff]
    rintro ⟨h1, h2, -⟩
    exact hw (lt_of_lt_of_le h1 h2)

/-- Characterization of the rows for which a remote create call is made. -/
lemma check_called_mem {data : List (List Value)} {w : Nat} {env : Nat → RowEvent}
    {now : String} {r : Nat} :
    r ∈ (checkForNewProducts data w env now).calledRows ↔
      (w < r ∧ r ≤ data.length ∧
       (processRow (data.headD []) (data.getD (r - 1) []) (env r) now r).remoteCalled = true) := by
  by_cases hw : w < data.length
  · simp only [checkForNewProducts, if_pos hw, List.mem_filter, mem_rowRange]
    tauto
  · rw [checkForNewProducts]
    simp only [if_neg hw]
    simp only [List.not_mem_nil, false_iff]
    rintro ⟨h1, h2, -⟩
    exact hw (lt_of_lt_of_le h1 h2)

/-- An all-empty row is skipped with no write and no remote call. -/
lemma processRow_empty {headers rowData : List Value} {ev : RowEvent} {now : String}
    {r : Nat} (hemp : rowIsEmpty rowData = true) :
    processRow headers rowData ev now r = ⟨none, false⟩ := by
  simp [processRow, hemp]

/-- A raised exception on a non-empty row is recorded, no remote call. -/
lemma processRow_raise {headers rowData : List Value} {msg now : String} {r : Nat}
    (hemp : rowIsEmpty rowData = false) :
    processRow headers rowData (.raise msg) now r = ⟨some ("ERROR: " ++ msg), false⟩ := by
  simp [processRow, hemp]

/-- A validation failure on a non-empty row is recorded, no remote call. -/
lemma processRow_invalid {headers rowData : List Value} {f : FetchOutcome} {now : String}
    {r : Nat} (hemp : rowIsEmpty rowData = false)
    (hv : isValidProduct (mapRowToProduct headers rowData) = false) :
    processRow headers rowData (.fetch f) now r =
      ⟨some ("ERROR: " ++ ("Row " ++ toString r ++ ": Invalid product data (missing required fields)")), false⟩ := by
  simp [processRow, hemp, hv]

/-- A successful remote create on a valid non-empty row writes the Synced
marker. -/
lemma processRow_success {headers rowData : List Value} {f : FetchOutcome} {now : String}
    {r : Nat} {id : Int} {d : RemoteProduct} (hemp : rowIsEmpty rowData = false)
    (hv : isValidProduct (mapRowToProduct headers rowData) = true)
    (hc : createShopifyProduct f = .success id d) :
    processRow headers rowData (.fetch f) now r =
      ⟨some ("Synced: " ++ now ++ " (ID: " ++ toString id ++ ")"), true⟩ := by
  simp [processRow, hemp, hv, hc]

/-- A failed remote create on a valid non-empty row writes the error. -/
lemma processRow_failure {headers rowData : List Value} {f : FetchOutcome} {now e : String}
    {r : Nat} (hemp : rowIsEmpty rowData = false)
    (hv : isValidProduct (mapRowToProduct headers rowData) = true)
    (hc : createShopifyProduct f = .failure e) :
    processRow headers rowData (.fetch f) now r = ⟨some ("ERROR: " ++ e), true⟩ := by
  simp [processRow, hemp, hv, hc]


/-- An unmapped (falsy non-zero) value leaves the product unchanged. -/
lemma applyHeader_unmapped {p : Product} {h v : Value} (hm : v.isMapped = false) :
    applyHeader p h v = p := by
  have hs : (v.isFalsy && !v.isZero) = true := by
    cases hb : v.isFalsy <;> cases hz : v.isZero <;> simp_all [Value.isMapped]
  simp [applyHeader, hs]

/-- Every dispatch step preserves the length of the variants list. -/
lemma applyHeader_variants_length {p : Product} {h v : Value} :
    (applyHeader p h v).variants.length = p.variants.length := by
  unfold applyHeader
  split
  · rfl
  · split <;> try rfl
    all_goals try simp_all
    all_goals (cases hop : p.options <;> cases hvv : p.variants <;>
      (try simp [hop, hvv]) <;> (try (split <;> simp_all)))

/-- A column that is not a title alias leaves the title field unchanged. -/
lemma applyHeader_frame_title {p : Product} {h v : Value}
    (hh : normHeader h ∉ (["title", "product name", "name"] : List String)) :
    (applyHeader p h v).title = p.title := by
  simp only [List.mem_cons, List.not_mem_nil, or_false, not_or] at hh
  unfold applyHeader
  split
  · rfl
  · split <;> try rfl
    all_goals try simp_all
    all_goals (cases hop : p.options <;> cases hvv : p.variants <;>
      (try simp [hop, hvv]) <;> (try (split <;> simp_all)))

/-- A column that is not a body_html alias leaves the body_html field unchanged. -/
lemma applyHeader_frame_body_html {p : Product} {h v : Value}
    (hh : normHeader h ∉ (["description", "body", "body_html"] : List String)) :
    (applyHeader p h v).body_html = p.body_html := by
  simp only [List.mem_cons, List.not_mem_nil, or_false, not_or] at hh
  unfold applyHeader
  split
  · rfl
  · split <;> try rfl
    all_goals try simp_all
    all_goals (cases hop : p.options <;> cases hvv : p.variants <;>
      (try simp [hop, hvv]) <;> (try (split <;> simp_all)))

/-- A column that is not a vendor alias leaves the vendor field unchanged. -/
lemma applyHeader_frame_vendor {p : Product} {h v : Value}
    (hh : normHeader h ∉ (["vendor", "brand", "manufacturer"] : List String)) :
    (applyHeader p h v).vendor = p.vendor := by
  simp only [List.mem_cons, List.not_mem_nil, or_false, not_or] at hh
  unfold applyHeader
  split
  · rfl
  · split <;> try rfl
    all_goals try simp_all
    all_goals (cases hop : p.options <;> cases hvv : p.variants <;>
      (try simp [hop, hvv]) <;> (try (split <;> simp_all)))

/-- A column that is not a product_type alias leaves the product_type field unchanged. -/
lemma applyHeader_frame_product_type {p : Product} {h v : Value}
    (hh : normHeader h ∉ (["product type", "type", "category"] : List String)) :
    (applyHeader p h v).product_type = p.product_type := by
  simp only [List.mem_cons, List.not_mem_nil, or_false, not_or] at hh
  unfold applyHeader
  split
  · rfl
  · split <;> try rfl
    all_goals try simp_all
    all_goals (cases hop : p.options <;> cases hvv : p.variants <;>
      (try simp [hop, hvv]) <;> (try (split <;> simp_all)))

/-- A column that is not a tags alias leaves the tags field unchanged. -/
lemma applyHeader_frame_tags {p : Product} {h v : Value}
    (hh : normHeader h ∉ (["tags", "keywords"] : List String)) :
    (applyHeader p h v).tags = p.tags := by
  simp only [List.mem_cons, List.not_mem_nil, or_false, not_or] at hh
  unfold applyHeader
  split
  · rfl
  · split <;> try rfl
    all_goals try simp_all
    all_goals (cases hop : p.options <;> cases hvv : p.variants <;>
      (try simp [hop, hvv]) <;> (try (split <;> simp_all)))

/-- A column that is not a published alias leaves the published field unchanged. -/
lemma applyHeader_frame_published {p : Product} {h v : Value}
    (hh : normHeader h ∉ (["published", "status"] : List String)) :
    (applyHeader p h v).published = p.published := by
  simp only [List.mem_cons, List.not_mem_nil, or_false, not_or] at hh
  unfold applyHeader
  split
  · rfl
  · split <;> try rfl
    all_goals try simp_all
    all_goals (cases hop : p.options <;> cases hvv : p.variants <;>
      (try simp [hop, hvv]) <;> (try (split <;> simp_all)))

/-- A column that is not a sku alias leaves the head variant's sku unchanged. -/
lemma applyHeader_frame_sku {p : Product} {h v : Value}
    (hh : normHeader h ∉ (["sku", "product code"] : List String)) :
    ((applyHeader p h v).variants.headD {}).sku = (p.variants.headD {}).sku := by
  simp only [List.mem_cons, List.not_mem_nil, or_false, not_or] at hh
  unfold applyHeader
  split
  · rfl
  · split <;> try rfl
    all_goals try simp_all
    all_goals (cases hop : p.options <;> cases hvv : p.variants <;>
      (try simp [hop, hvv]) <;> (try (split <;> simp_all)))

/-- A column that is not a barcode alias leaves the head variant's barcode unchanged. -/
lemma applyHeader_frame_barcode {p : Product} {h v : Value}
    (hh : normHeader h ∉ (["barcode", "upc", "ean", "isbn", "gtin"] : List String)) :
    ((applyHeader p h v).variants.headD {}).barcode = (p.variants.headD {}).barcode := by
  simp only [List.mem_cons, List.not_mem_nil, or_false, not_or] at hh
  unfold applyHeader
  split
  · rfl
  · split <;> try rfl
    all_goals try simp_all
    all_goals (cases hop : p.options <;> cases hvv : p.variants <;>
      (try simp [hop, hvv]) <;> (try (split <;> simp_all)))

/-- A column that is not a price alias leaves the head variant's price unchanged. -/
lemma applyHeader_frame_price {p : Product} {h v : Value}
    (hh : normHeader h ∉ (["price", "retail price"] : List String)) :
    ((applyHeader p h v).variants.headD {}).price = (p.variants.headD {}).price := by
  simp only [List.mem_cons, List.not_mem_nil, or_false, not_or] at hh
  unfold applyHeader
  split
  · rfl
  · split <;> try rfl
    all_goals try simp_all
    all_goals (cases hop : p.options <;> cases hvv : p.variants <;>
      (try simp [hop, hvv]) <;> (try (split <;> simp_all)))

/-- A column that is not a compare_at_price alias leaves the head variant's compare_at_price unchanged. -/
lemma applyHeader_frame_compare_at_price {p : Product} {h v : Value}
    (hh : normHeader h ∉ (["compare at price", "compare price", "msrp"] : List String)) :
    ((applyHeader p h v).variants.headD {}).compare_at_price = (p.variants.headD {}).compare_at_price := by
  simp only [List.mem_cons, List.not_mem_nil, or_false, not_or] at hh
  unfold applyHeader
  split
  · rfl
  · split <;> try rfl
    all_goals try simp_all
    all_goals (cases hop : p.options <;> cases hvv : p.variants <;>
      (try simp [hop, hvv]) <;> (try (split <;> simp_all)))

/-- A column that is not a cost alias leaves the head variant's cost unchanged. -/
lemma applyHeader_frame_cost {p : Product} {h v : Value}
    (hh : normHeader h ∉ (["cost", "cost price"] : List String)) :
    ((applyHeader p h v).variants.headD {}).cost = (p.variants.headD {}).cost := by
  simp only [List.mem_cons, List.not_mem_nil, or_false, not_or] at hh
  unfold applyHeader
  split
  · rfl
  · split <;> try rfl
    all_goals try simp_all
    all_goals (cases hop : p.options <;> cases hvv : p.variants <;>
      (try simp [hop, hvv]) <;> (try (split <;> simp_all)))

/-- A column that is not a inventory_quantity alias leaves the head variant's inventory_quantity unchanged. -/
lemma applyHeader_frame_inventory_quantity {p : Product} {h v : Value}
    (hh : normHeader h ∉ (["inventory", "quantity", "stock"] : List String)) :
    ((applyHeader p h v).variants.headD {}).inventory_quantity = (p.variants.headD {}).inventory_quantity := by
  simp only [List.mem_cons, List.not_mem_nil, or_false, not_or] at hh
  unfold applyHeader
  split
  · rfl
  · split <;> try rfl
    all_goals try simp_all
    all_goals (cases hop : p.options <;> cases hvv : p.variants <;>
      (try simp [hop, hvv]) <;> (try (split <;> simp_all)))

/-- A column that is not a weight alias leaves the head variant's weight unchanged. -/
lemma applyHeader_frame_weight {p : Product} {h v : Value}
    (hh : normHeader h ∉ (["weight"] : List String)) :
    ((applyHeader p h v).variants.headD {}).weight = (p.variants.headD {}).weight := by
  simp only [List.mem_cons, List.not_mem_nil, or_false, not_or] at hh
  unfold applyHeader
  split
  · rfl
  · split <;> try rfl
    all_goals try simp_all
    all_goals (cases hop : p.options <;> cases hvv : p.variants <;>
      (try simp [hop, hvv]) <;> (try (split <;> simp_all)))

/-- A column that is not a weight_unit alias leaves the head variant's weight_unit unchanged. -/
lemma applyHeader_frame_weight_unit {p : Product} {h v : Value}
    (hh : normHeader h ∉ (["weight unit"] : List String)) :
    ((applyHeader p h v).variants.headD {}).weight_unit = (p.variants.headD {}).weight_unit := by
  simp only [List.mem_cons, List.not_mem_nil, or_false, not_or] at hh
  unfold applyHeader
  split
  · rfl
  · split <;> try rfl
    all_goals try simp_all
    all_goals (cases hop : p.options <;> cases hvv : p.variants <;>
      (try simp [hop, hvv]) <;> (try (split <;> simp_all)))

/-- A column that is not a option1 alias leaves the head variant's option1 unchanged. -/
lemma applyHeader_frame_option1 {p : Product} {h v : Value}
    (hh : normHeader h ∉ (["option1", "size"] : List String)) :
    ((applyHeader p h v).variants.headD {}).option1 = (p.variants.headD {}).option1 := by
  simp only [List.mem_cons, List.not_mem_nil, or_false, not_or] at hh
  unfold applyHeader
  split
  · rfl
  · split <;> try rfl
    all_goals try simp_all
    all_goals (cases hop : p.options <;> cases hvv : p.variants <;>
      (try simp [hop, hvv]) <;> (try (split <;> simp_all)))

/-- A column that is not a option2 alias leaves the head variant's option2 unchanged. -/
lemma applyHeader_frame_option2 {p : Product} {h v : Value}
    (hh : normHeader h ∉ (["option2", "color"] : List String)) :
    ((applyHeader p h v).variants.headD {}).option2 = (p.variants.headD {}).option2 := by
  simp only [List.mem_cons, List.not_mem_nil, or_false, not_or] at hh
  unfold applyHeader
  split
  · rfl
  · split <;> try rfl
    all_goals try simp_all
    all_goals (cases hop : p.options <;> cases hvv : p.variants <;>
      (try simp [hop, hvv]) <;> (try (split <;> simp_all)))

/-- If no column of `headers` (absolute indices starting at `n`) is a mapped
alias of family `A`, the mapper fold preserves the field viewed by `π`. -/
lemma foldl_frame {α : Type} (A : List String) (π : Product → α)
    (hframe : ∀ (q : Product) (h v : Value), ¬(normHeader h ∈ A ∧ v.isMapped = true) →
      π (applyHeader q h v) = π q) :
    ∀ (headers : List Value) (n : Nat) (q : Product) (rowData : List Value),
      (∀ k, k ∈ List.range (n + headers.length) → n ≤ k →
        ¬(normHeader (headers.getD (k - n) .null) ∈ A ∧
          (rowData.getD k .null).isMapped = true)) →
      π ((headers.enumFrom n).foldl
          (fun q2 hi => applyHeader q2 hi.2 (rowData.getD hi.1 .null)) q) = π q := by
  intro headers
  induction headers with
  | nil => intro n q rowData _; rfl
  | cons h t ih =>
    intro n q rowData hk
    rw [List.enumFrom_cons, List.foldl_cons]
    have h0 : ¬(normHeader h ∈ A ∧ (rowData.getD n .null).isMapped = true) := by
      have hmem : n ∈ List.range (n + (h :: t).length) := by
        rw [List.mem_range]; simp
      have := hk n hmem (Nat.le_refl n)
      simpa using this
    have ht : ∀ k, k ∈ List.range (n + 1 + t.length) → n + 1 ≤ k →
        ¬(normHeader (t.getD (k - (n + 1)) .null) ∈ A ∧
          (rowData.getD k .null).isMapped = true) := by
      intro k hkmem hge
      have hkmem2 : k ∈ List.range (n + (h :: t).length) := by
        rw [List.mem_range] at hkmem ⊢
        simp only [List.length_cons]
        omega
      have := hk k hkmem2 (by omega)
      have harith : k - n = (k - (n + 1)) + 1 := by omega
      rw [harith] at this
      simpa using this
    rw [ih (n + 1) _ rowData ht, hframe _ _ _ h0]

/-- The last mapped alias column of a family determines the field viewed by
`π`: the fold ends with the value that column writes. -/
lemma foldl_last_write {α : Type} (A : List String) (π : Product → α) (wv : Value → α)
    (hwrite : ∀ (q : Product) (h v : Value), q.variants ≠ [] → normHeader h ∈ A →
      v.isMapped = true → π (applyHeader q h v) = wv v)
    (hframe : ∀ (q : Product) (h v : Value), ¬(normHeader h ∈ A ∧ v.isMapped = true) →
      π (applyHeader q h v) = π q) :
    ∀ (headers : List Value) (n : Nat) (q : Product) (rowData : List Value) (j : Nat),
      q.variants ≠ [] → n ≤ j → j < n + headers.length →
      normHeader (headers.getD (j - n) .null) ∈ A →
      (rowData.getD j .null).isMapped = true →
      (∀ k, k ∈ List.range (n + headers.length) → j < k →
        ¬(normHeader (headers.getD (k - n) .null) ∈ A ∧
          (rowData.getD k .null).isMapped = true)) →
      π ((headers.enumFrom n).foldl
          (fun q2 hi => applyHeader q2 hi.2 (rowData.getD hi.1 .null)) q) =
        wv (rowData.getD j .null) := by
  intro headers
  induction headers with
  | nil =>
    intro n q rowData j _ hnj hjlen _ _ _
    simp only [List.length_nil] at hjlen
    omega
  | cons h t ih =>
    intro n q rowData j hq hnj hjlen hjA hjm hk
    rw [List.enumFrom_cons, List.foldl_cons]
    by_cases hjn : j = n
    · subst hjn
      have hA0 : normHeader h ∈ A := by simpa using hjA
      have hrest : ∀ k, k ∈ List.range (j + 1 + t.length) → j + 1 ≤ k →
          ¬(normHeader (t.getD (k - (j + 1)) .null) ∈ A ∧
            (rowData.getD k .null).isMapped = true) := by
        intro k hkmem hge
        have hkmem2 : k ∈ List.range (j + (h :: t).length) := by
          rw [List.mem_range] at hkmem ⊢
          simp only [List.length_cons]
          omega
        have := hk k hkmem2 (by omega)
        have harith : k - j = (k - (j + 1)) + 1 := by omega
        rw [harith] at this
        simpa using this
      rw [foldl_frame A π hframe t (j + 1) _ rowData hrest]
      exact hwrite q h _ hq hA0 hjm
    · have hq2 : (applyHeader q h (rowData.getD n .null)).variants ≠ [] := by
        intro hnil
        have hlen := applyHeader_variants_length (p := q) (h := h) (v := rowData.getD n .null)
        rw [hnil] at hlen
        simp at hlen
        exact hq (List.length_eq_zero.mp hlen.symm)
      have hjA2 : normHeader (t.getD (j - (n + 1)) .null) ∈ A := by
        have harith : j - n = (j - (n + 1)) + 1 := by omega
        rw [harith] at hjA
        simpa using hjA
      have hk2 : ∀ k, k ∈ List.range (n + 1 + t.length) → j < k →
          ¬(normHeader (t.getD (k - (n + 1)) .null) ∈ A ∧
            (rowData.getD k .null).isMapped = true) := by
        intro k hkmem hgt2
        have hkmem2 : k ∈ List.range (n + (h :: t).length) := by
          rw [List.mem_range] at hkmem ⊢
          simp only [List.length_cons]
          omega
        have := hk k hkmem2 hgt2
        have harith : k - n = (k - (n + 1)) + 1 := by omega
        rw [harith] at this
        simpa using this
      have hjlen2 : j < n + 1 + t.length := by
        simp only [List.length_cons] at hjlen
        omega
      exact ih (n + 1) _ rowData j hq2 (by omega) hjlen2 hjA2 hjm hk2

/-- C1: an option1/size column sets `variant.option1` and seeds
`options = [{name:"Size", values:[value]}]` only when no options sequence
exists yet; an option2/color column sets `variant.option2`, seeds the
placeholder `[{name:"Size", values:["Default"]}]` when options is absent,
and appends `{name:"Color", values:[value]}` only when fewer than 2 option
groups exist; for headers ["Title","Size","Color"] and row ["Shirt","M","Red"]
the result is options = [Size:["M"], Color:["Red"]], option1="M", option2="Red". -/
theorem C1_option_seeding :
    (∀ (p : Product) (h v : Value), v.isMapped = true →
      (normHeader h = "option1" ∨ normHeader h = "size") → p.variants ≠ [] →
      ((applyHeader p h v).variants.headD {}).option1 = some v.toStr ∧
      (p.options = none → (applyHeader p h v).options = some [⟨"Size", [v.toStr]⟩]) ∧
      (∀ opts, p.options = some opts → (applyHeader p h v).options = some opts)) ∧
    (∀ (p : Product) (h v : Value), v.isMapped = true →
      (normHeader h = "option2" ∨ normHeader h = "color") → p.variants ≠ [] →
      ((applyHeader p h v).variants.headD {}).option2 = some v.toStr ∧
      (p.options = none → (applyHeader p h v).options = some [⟨"Size", ["Default"]⟩, ⟨"Color", [v.toStr]⟩]) ∧
      (∀ opts, p.options = some opts →
        (applyHeader p h v).options = some (if opts.length < 2 then opts ++ [⟨"Color", [v.toStr]⟩] else opts))) ∧
    mapRowToProduct [.str "Title", .str "Size", .str "Color"] [.str "Shirt", .str "M", .str "Red"] =
      { title := some (.str "Shirt"),
        options := some [⟨"Size", ["M"]⟩, ⟨"Color", ["Red"]⟩],
        variants := [{ option1 := some "M", option2 := some "Red" }] } := by
  refine ⟨?_, ?_, by decide⟩
  · intro p h v hm hh hv
    cases hvs : p.variants with
    | nil => exact absurd hvs hv
    | cons w ws =>
      cases ho : p.options with
      | none =>
        rw [applyHeader_option1_none hm hh ho]
        refine ⟨by simp [hvs], fun _ => rfl, ?_⟩
        intro opts hopts
        cases hopts
      | some opts0 =>
        rw [applyHeader_option1_some hm hh ho]
        refine ⟨by simp [hvs], ?_, ?_⟩
        · intro hnone; cases hnone
        · intro opts hopts
          injection hopts with he
          subst he
          simpa using ho
  · intro p h v hm hh hv
    cases hvs : p.variants with
    | nil => exact absurd hvs hv
    | cons w ws =>
      cases ho : p.options with
      | none =>
        rw [applyHeader_option2_none hm hh ho]
        refine ⟨by simp [hvs], fun _ => rfl, ?_⟩
        intro opts hopts
        cases hopts
      | some opts0 =>
        rw [applyHeader_option2_some hm hh ho]
        refine ⟨by simp [hvs], ?_, ?_⟩
        · intro hnone; cases hnone
        · intro opts hopts
          injection hopts with he
          subst he
          rfl

/-- Witness for C1 at a concrete input. -/
theorem C1_option_seeding_witness :
    ((applyHeader {} (.str "Size") (.str "M")).variants.headD {}).option1 = some "M" ∧
    (applyHeader {} (.str "Size") (.str "M")).options = some [⟨"Size", ["M"]⟩] := by
  have h := C1_option_seeding.1 {} (.str "Size") (.str "M") (by decide) (by decide) (by decide)
  exact ⟨h.1, h.2.1 rfl⟩

/-- C5: the mapped `published` field is `true` exactly for boolean `true` or
the exact strings "true", "yes", "published"; any other mapped value
(including "1" and the padded "TRUE ") yields `false`. -/
theorem C5_published_coercion :
    (∀ (p : Product) (h v : Value), v.isMapped = true →
      (normHeader h = "published" ∨ normHeader h = "status") →
      (((applyHeader p h v).published = some true) ↔
        (v = .bool true ∨ v = .str "true" ∨ v = .str "yes" ∨ v = .str "published")) ∧
      ((applyHeader p h v).published = some true ∨ (applyHeader p h v).published = some false)) ∧
    (applyHeader {} (.str "published") (.str "1")).published = some false ∧
    (applyHeader {} (.str "Status") (.str "TRUE ")).published = some false := by
  refine ⟨?_, by decide, by decide⟩
  intro p h v hm hh
  rw [applyHeader_published hm hh]
  constructor
  · simp only [Option.some_inj]
    simp [Bool.or_eq_true, beq_iff_eq, or_assoc]
  · by_cases hb : (v == Value.bool true || v == Value.str "true" || v == Value.str "yes" || v == Value.str "published") = true
    · rw [hb]; exact Or.inl rfl
    · rw [Bool.not_eq_true] at hb
      rw [hb]; exact Or.inr rfl

/-- Witness for C5 at a concrete input. -/
theorem C5_published_coercion_witness :
    (applyHeader {} (.str "published") (.str "yes")).published = some true := by
  have h := C5_published_coercion.1 {} (.str "published") (.str "yes") (by decide) (by decide)
  exact h.1.mpr (by decide)

/-- C6: a mapped inventory/quantity/stock cell always yields an integer
`inventory_quantity` and a mapped weight cell a numeric `weight`; a
non-numeric value yields 0 in both cases; the field is never left absent. -/
theorem C6_numeric_parsing :
    (∀ (p : Product) (h v : Value), v.isMapped = true →
      (normHeader h = "inventory" ∨ normHeader h = "quantity" ∨ normHeader h = "stock") →
      p.variants ≠ [] →
      (∃ n : Int, ((applyHeader p h v).variants.headD {}).inventory_quantity = some n) ∧
      (jsParseInt v = none → ((applyHeader p h v).variants.headD {}).inventory_quantity = some 0)) ∧
    (∀ (p : Product) (h v : Value), v.isMapped = true → normHeader h = "weight" →
      p.variants ≠ [] →
      (∃ q : Rat, ((applyHeader p h v).variants.headD {}).weight = some q) ∧
      (jsParseFloat v = none → ((applyHeader p h v).variants.headD {}).weight = some 0)) := by
  constructor
  · intro p h v hm hh hv
    rw [applyHeader_inventory hm hh]
    cases hvs : p.variants with
    | nil => exact absurd hvs hv
    | cons w ws =>
      refine ⟨⟨(jsParseInt v).getD 0, by simp [hvs]⟩, ?_⟩
      intro hn
      simp [hvs, hn]
  · intro p h v hm hh hv
    rw [applyHeader_weight hm hh]
    cases hvs : p.variants with
    | nil => exact absurd hvs hv
    | cons w ws =>
      refine ⟨⟨(jsParseFloat v).getD 0, by simp [hvs]⟩, ?_⟩
      intro hn
      simp [hvs, hn]

/-- Witness for C6 at concrete non-numeric inputs. -/
theorem C6_numeric_parsing_witness :
    ((applyHeader {} (.str "Stock") (.str "N/A")).variants.headD {}).inventory_quantity = some 0 ∧
    ((applyHeader {} (.str "Weight") (.str "heavy")).variants.headD {}).weight = some 0 := by
  refine ⟨(C6_numeric_parsing.1 {} (.str "Stock") (.str "N/A") (by decide) (by decide) (by decide)).2 (by decide),
         (C6_numeric_parsing.2 {} (.str "Weight") (.str "heavy") (by decide) (by decide) (by decide)).2 (by decide)⟩

/-- C10: a falsy cell other than the number 0 (empty string, null/undefined,
false, NaN) is skipped entirely, leaving the product unchanged; the number 0
is the only falsy value that is mapped. -/
theorem C10_falsy_skip :
    (∀ (p : Product) (h v : Value), v.isFalsy = true → v.isZero = false →
      applyHeader p h v = p) ∧
    (∀ v : Value, v.isZero = true ↔ v = .num 0) ∧
    ((Value.str "").isFalsy = true ∧ (Value.null).isFalsy = true ∧
     (Value.bool false).isFalsy = true ∧ (Value.nan).isFalsy = true ∧
     (Value.num 0).isFalsy = true) ∧
    (applyHeader {} (.str "title") (.num 0)).title = some (.num 0) := by
  refine ⟨fun p h v hf hz => applyHeader_skip hf hz, ?_, by decide, by decide⟩
  intro v
  cases v <;> simp [Value.isZero]

/-- Witness for C10 at a concrete input. -/
theorem C10_falsy_skip_witness :
    applyHeader {} (.str "title") (.bool false) = {} :=
  C10_falsy_skip.1 {} (.str "title") (.bool false) (by decide) (by decide)

/-- An image column whose trimmed value is blank (or whose value is falsy)
writes nothing even when reached. -/
lemma applyHeader_image_blank {p : Product} {h v : Value}
    (hh : normHeader h = "image" ∨ normHeader h = "image url" ∨ normHeader h = "product image")
    (ht : (!v.isFalsy && trimStr v.toStr != "") = false) :
    applyHeader p h v = p := by
  by_cases hs : (v.isFalsy && !v.isZero) = true
  · simp [applyHeader, hs]
  · rw [Bool.not_eq_true] at hs
    rcases hh with hh | hh | hh <;> simp [applyHeader, hs, hh, ht]

/-- C2 counterexample: (a) for headers ["Size","Option1"] (two aliases of
the same canonical option1 field) and row ["M","L"], the final
`variant.option1` is the later column's "L" but the seeded options entry
keeps the earlier column's "M"; (b) for headers ["Image","Image URL"] and
row ["a.png"," "], both cells non-empty, the images field keeps the earlier
column's "a.png" (the later, whitespace-only cell writes nothing, as the
single-column run shows).  So last-write-wins extends neither to the seeded
options entries nor to the images field as the claim states. -/
theorem C2_counterexample :
    (mapRowToProduct [.str "Size", .str "Option1"] [.str "M", .str "L"]).options =
      some [⟨"Size", ["M"]⟩] ∧
    ((mapRowToProduct [.str "Size", .str "Option1"] [.str "M", .str "L"]).variants.headD {}).option1 =
      some "L" ∧
    some [(⟨"Size", ["M"]⟩ : ProductOption)] ≠ some [(⟨"Size", ["L"]⟩ : ProductOption)] ∧
    (Value.str " ").isMapped = true ∧
    (mapRowToProduct [.str "Image", .str "Image URL"] [.str "a.png", .str " "]).images =
      some [⟨"a.png"⟩] ∧
    (mapRowToProduct [.str "Image URL"] [.str " "]).images = none := by
  refine ⟨by decide, by decide, by decide, by decide, by decide, by decide⟩

/-- C2 (amended): over arbitrary header and data rows, for every
directly-assigned canonical field — title, body_html, vendor, product_type,
tags, published, and the variant fields sku, barcode, price,
compare_at_price, cost, inventory_quantity, weight, weight_unit, option1,
option2 — the field's final value is determined by the last (highest-index)
column whose header aliases that field and whose cell is mapped: it equals
what that column alone would have written.  The options array and the images
field are excluded: the counterexample shows the seeded options entries and
a present image can retain an earlier column's value. -/
theorem C2_last_write_wins_amended :
    (∀ (headers rowData : List Value) (j : Nat),
      j < headers.length →
      normHeader (headers.getD j .null) ∈ (["title", "product name", "name"] : List String) →
      (rowData.getD j .null).isMapped = true →
      (∀ k, k ∈ List.range headers.length → j < k →
        ¬(normHeader (headers.getD k .null) ∈ (["title", "product name", "name"] : List String) ∧
          (rowData.getD k .null).isMapped = true)) →
      ((mapRowToProduct headers rowData)).title =
        ((applyHeader {} (headers.getD j .null) (rowData.getD j .null))).title) ∧
    (∀ (headers rowData : List Value) (j : Nat),
      j < headers.length →
      normHeader (headers.getD j .null) ∈ (["description", "body", "body_html"] : List String) →
      (rowData.getD j .null).isMapped = true →
      (∀ k, k ∈ List.range headers.length → j < k →
        ¬(normHeader (headers.getD k .null) ∈ (["description", "body", "body_html"] : List String) ∧
          (rowData.getD k .null).isMapped = true)) →
      ((mapRowToProduct headers rowData)).body_html =
        ((applyHeader {} (headers.getD j .null) (rowData.getD j .null))).body_html) ∧
    (∀ (headers rowData : List Value) (j : Nat),
      j < headers.length →
      normHeader (headers.getD j .null) ∈ (["vendor", "brand", "manufacturer"] : List String) →
      (rowData.getD j .null).isMapped = true →
      (∀ k, k ∈ List.range headers.length → j < k →
        ¬(normHeader (headers.getD k .null) ∈ (["vendor", "brand", "manufacturer"] : List String) ∧
          (rowData.getD k .null).isMapped = true)) →
      ((mapRowToProduct headers rowData)).vendor =
        ((applyHeader {} (headers.getD j .null) (rowData.getD j .null))).vendor) ∧
    (∀ (headers rowData : List Value) (j : Nat),
      j < headers.length →
      normHeader (headers.getD j .null) ∈ (["product type", "type", "category"] : List String) →
      (rowData.getD j .null).isMapped = true →
      (∀ k, k ∈ List.range headers.length → j < k →
        ¬(normHeader (headers.getD k .null) ∈ (["product type", "type", "category"] : List String) ∧
          (rowData.getD k .null).isMapped = true)) →
      ((mapRowToProduct headers rowData)).product_type =
        ((applyHeader {} (headers.getD j .null) (rowData.getD j .null))).product_type) ∧
    (∀ (headers rowData : List Value) (j : Nat),
      j < headers.length →
      normHeader (headers.getD j .null) ∈ (["tags", "keywords"] : List String) →
      (rowData.getD j .null).isMapped = true →
      (∀ k, k ∈ List.range headers.length → j < k →
        ¬(normHeader (headers.getD k .null) ∈ (["tags", "keywords"] : List String) ∧
          (rowData.getD k .null).isMapped = true)) →
      ((mapRowToProduct headers rowData)).tags =
        ((applyHeader {} (headers.getD j .null) (rowData.getD j .null))).tags) ∧
    (∀ (headers rowData : List Value) (j : Nat),
      j < headers.length →
      normHeader (headers.getD j .null) ∈ (["published", "status"] : List String) →
      (rowData.getD j .null).isMapped = true →
      (∀ k, k ∈ List.range headers.length → j < k →
        ¬(normHeader (headers.getD k .null) ∈ (["published", "status"] : List String) ∧
          (rowData.getD k .null).isMapped = true)) →
      ((mapRowToProduct headers rowData)).published =
        ((applyHeader {} (headers.getD j .null) (rowData.getD j .null))).published) ∧
    (∀ (headers rowData : List Value) (j : Nat),
      j < headers.length →
      normHeader (headers.getD j .null) ∈ (["sku", "product code"] : List String) →
      (rowData.getD j .null).isMapped = true →
      (∀ k, k ∈ List.range headers.length → j < k →
        ¬(normHeader (headers.getD k .null) ∈ (["sku", "product code"] : List String) ∧
          (rowData.getD k .null).isMapped = true)) →
      (((mapRowToProduct headers rowData)).variants.headD {}).sku =
        (((applyHeader {} (headers.getD j .null) (rowData.getD j .null))).variants.headD {}).sku) ∧
    (∀ (headers rowData : List Value) (j : Nat),
      j < headers.length →
      normHeader (headers.getD j .null) ∈ (["barcode", "upc", "ean", "isbn", "gtin"] : List String) →
      (rowData.getD j .null).isMapped = true →
      (∀ k, k ∈ List.range headers.length → j < k →
        ¬(normHeader (headers.getD k .null) ∈ (["barcode", "upc", "ean", "isbn", "gtin"] : List String) ∧
          (rowData.getD k .null).isMapped = true)) →
      (((mapRowToProduct headers rowData)).variants.headD {}).barcode =
        (((applyHeader {} (headers.getD j .null) (rowData.getD j .null))).variants.headD {}).barcode) ∧
    (∀ (headers rowData : List Value) (j : Nat),
      j < headers.length →
      normHeader (headers.getD j .null) ∈ (["price", "retail price"] : List String) →
      (rowData.getD j .null).isMapped = true →
      (∀ k, k ∈ List.range headers.length → j < k →
        ¬(normHeader (headers.getD k .null) ∈ (["price", "retail price"] : List String) ∧
          (rowData.getD k .null).isMapped = true)) →
      (((mapRowToProduct headers rowData)).variants.headD {}).price =
        (((applyHeader {} (headers.getD j .null) (rowData.getD j .null))).variants.headD {}).price) ∧
    (∀ (headers rowData : List Value) (j : Nat),
      j < headers.length →
      normHeader (headers.getD j .null) ∈ (["compare at price", "compare price", "msrp"] : List String) →
      (rowData.getD j .null).isMapped = true →
      (∀ k, k ∈ List.range headers.length → j < k →
        ¬(normHeader (headers.getD k .null) ∈ (["compare at price", "compare price", "msrp"] : List String) ∧
          (rowData.getD k .null).isMapped = true)) →
      (((mapRowToProduct headers rowData)).variants.headD {}).compare_at_price =
        (((applyHeader {} (headers.getD j .null) (rowData.getD j .null))).variants.headD {}).compare_at_price) ∧
    (∀ (headers rowData : List Value) (j : Nat),
      j < headers.length →
      normHeader (headers.getD j .null) ∈ (["cost", "cost price"] : List String) →
      (rowData.getD j .null).isMapped = true →
      (∀ k, k ∈ List.range headers.length → j < k →
        ¬(normHeader (headers.getD k .null) ∈ (["cost", "cost price"] : List String) ∧
          (rowData.getD k .null).isMapped = true)) →
      (((mapRowToProduct headers rowData)).variants.headD {}).cost =
        (((applyHeader {} (headers.getD j .null) (rowData.getD j .null))).variants.headD {}).cost) ∧
    (∀ (headers rowData : List Value) (j : Nat),
      j < headers.length →
      normHeader (headers.getD j .null) ∈ (["inventory", "quantity", "stock"] : List String) →
      (rowData.getD j .null).isMapped = true →
      (∀ k, k ∈ List.range headers.length → j < k →
        ¬(normHeader (headers.getD k .null) ∈ (["inventory", "quantity", "stock"] : List String) ∧
          (rowData.getD k .null).isMapped = true)) →
      (((mapRowToProduct headers rowData)).variants.headD {}).inventory_quantity =
        (((applyHeader {} (headers.getD j .null) (rowData.getD j .null))).variants.headD {}).inventory_quantity) ∧
    (∀ (headers rowData : List Value) (j : Nat),
      j < headers.length →
      normHeader (headers.getD j .null) ∈ (["weight"] : List String) →
      (rowData.getD j .null).isMapped = true →
      (∀ k, k ∈ List.range headers.length → j < k →
        ¬(normHeader (headers.getD k .null) ∈ (["weight"] : List String) ∧
          (rowData.getD k .null).isMapped = true)) →
      (((mapRowToProduct headers rowData)).variants.headD {}).weight =
        (((applyHeader {} (headers.getD j .null) (rowData.getD j .null))).variants.headD {}).weight) ∧
    (∀ (headers rowData : List Value) (j : Nat),
      j < headers.length →
      normHeader (headers.getD j .null) ∈ (["weight unit"] : List String) →
      (rowData.getD j .null).isMapped = true →
      (∀ k, k ∈ List.range headers.length → j < k →
        ¬(normHeader (headers.getD k .null) ∈ (["weight unit"] : List String) ∧
          (rowData.getD k .null).isMapped = true)) →
      (((mapRowToProduct headers rowData)).variants.headD {}).weight_unit =
        (((applyHeader {} (headers.getD j .null) (rowData.getD j .null))).variants.headD {}).weight_unit) ∧
    (∀ (headers rowData : List Value) (j : Nat),
      j < headers.length →
      normHeader (headers.getD j .null) ∈ (["option1", "size"] : List String) →
      (rowData.getD j .null).isMapped = true →
      (∀ k, k ∈ List.range headers.length → j < k →
        ¬(normHeader (headers.getD k .null) ∈ (["option1", "size"] : List String) ∧
          (rowData.getD k .null).isMapped = true)) →
      (((mapRowToProduct headers rowData)).variants.headD {}).option1 =
        (((applyHeader {} (headers.getD j .null) (rowData.getD j .null))).variants.headD {}).option1) ∧
    (∀ (headers rowData : List Value) (j : Nat),
      j < headers.length →
      normHeader (headers.getD j .null) ∈ (["option2", "color"] : List String) →
      (rowData.getD j .null).isMapped = true →
      (∀ k, k ∈ List.range headers.length → j < k →
        ¬(normHeader (headers.getD k .null) ∈ (["option2", "color"] : List String) ∧
          (rowData.getD k .null).isMapped = true)) →
      (((mapRowToProduct headers rowData)).variants.headD {}).option2 =
        (((applyHeader {} (headers.getD j .null) (rowData.getD j .null))).variants.headD {}).option2) := by
  refine ⟨?_, ?_, ?_, ?_, ?_, ?_, ?_, ?_, ?_, ?_, ?_, ?_, ?_, ?_, ?_, ?_⟩
  · intro headers rowData j hj hA hm hk
    have hw : ∀ (q : Product) (h v : Value), q.variants ≠ [] →
        normHeader h ∈ (["title", "product name", "name"] : List String) →
        v.isMapped = true → (fun q => q.title) (applyHeader q h v) = some v := by
      intro q h v hq2 hA2 hm2
      have hh : normHeader h = "title" ∨ normHeader h = "product name" ∨ normHeader h = "name" := by simpa using hA2
      rw [applyHeader_title hm2 hh]
    have hf : ∀ (q : Product) (h v : Value),
        ¬(normHeader h ∈ (["title", "product name", "name"] : List String) ∧ v.isMapped = true) →
        (fun q => q.title) (applyHeader q h v) = (fun q => q.title) q := by
      intro q h v hn
      by_cases hm2 : v.isMapped = true
      · exact applyHeader_frame_title (fun hmem => hn ⟨hmem, hm2⟩)
      · rw [applyHeader_unmapped (Bool.not_eq_true _ |>.mp hm2)]
    have hk0 : ∀ k, k ∈ List.range (0 + headers.length) → j < k →
        ¬(normHeader (headers.getD (k - 0) .null) ∈ (["title", "product name", "name"] : List String) ∧
          (rowData.getD k .null).isMapped = true) := by
      intro k hkm hjk
      have := hk k (by simpa using hkm) hjk
      simpa using this
    have hres := foldl_last_write (["title", "product name", "name"] : List String)
      (fun q => q.title) (fun v => some v) hw hf headers 0 {} rowData j
      (by decide) (Nat.zero_le j) (by simpa using hj) (by simpa using hA) hm hk0
    have hsingle := hw {} (headers.getD j .null) (rowData.getD j .null) (by decide) hA hm
    exact hres.trans hsingle.symm
  · intro headers rowData j hj hA hm hk
    have hw : ∀ (q : Product) (h v : Value), q.variants ≠ [] →
        normHeader h ∈ (["description", "body", "body_html"] : List String) →
        v.isMapped = true → (fun q => q.body_html) (applyHeader q h v) = some v := by
      intro q h v hq2 hA2 hm2
      have hh : normHeader h = "description" ∨ normHeader h = "body" ∨ normHeader h = "body_html" := by simpa using hA2
      rw [applyHeader_body_html hm2 hh]
    have hf : ∀ (q : Product) (h v : Value),
        ¬(normHeader h ∈ (["description", "body", "body_html"] : List String) ∧ v.isMapped = true) →
        (fun q => q.body_html) (applyHeader q h v) = (fun q => q.body_html) q := by
      intro q h v hn
      by_cases hm2 : v.isMapped = true
      · exact applyHeader_frame_body_html (fun hmem => hn ⟨hmem, hm2⟩)
      · rw [applyHeader_unmapped (Bool.not_eq_true _ |>.mp hm2)]
    have hk0 : ∀ k, k ∈ List.range (0 + headers.length) → j < k →
        ¬(normHeader (headers.getD (k - 0) .null) ∈ (["description", "body", "body_html"] : List String) ∧
          (rowData.getD k .null).isMapped = true) := by
      intro k hkm hjk
      have := hk k (by simpa using hkm) hjk
      simpa using this
    have hres := foldl_last_write (["description", "body", "body_html"] : List String)
      (fun q => q.body_html) (fun v => some v) hw hf headers 0 {} rowData j
      (by decide) (Nat.zero_le j) (by simpa using hj) (by simpa using hA) hm hk0
    have hsingle := hw {} (headers.getD j .null) (rowData.getD j .null) (by decide) hA hm
    exact hres.trans hsingle.symm
  · intro headers rowData j hj hA hm hk
    have hw : ∀ (q : Product) (h v : Value), q.variants ≠ [] →
        normHeader h ∈ (["vendor", "brand", "manufacturer"] : List String) →
        v.isMapped = true → (fun q => q.vendor) (applyHeader q h v) = some v := by
      intro q h v hq2 hA2 hm2
      have hh : normHeader h = "vendor" ∨ normHeader h = "brand" ∨ normHeader h = "manufacturer" := by simpa using hA2
      rw [applyHeader_vendor hm2 hh]
    have hf : ∀ (q : Product) (h v : Value),
        ¬(normHeader h ∈ (["vendor", "brand", "manufacturer"] : List String) ∧ v.isMapped = true) →
        (fun q => q.vendor) (applyHeader q h v) = (fun q => q.vendor) q := by
      intro q h v hn
      by_cases hm2 : v.isMapped = true
      · exact applyHeader_frame_vendor (fun hmem => hn ⟨hmem, hm2⟩)
      · rw [applyHeader_unmapped (Bool.not_eq_true _ |>.mp hm2)]
    have hk0 : ∀ k, k ∈ List.range (0 + headers.length) → j < k →
        ¬(normHeader (headers.getD (k - 0) .null) ∈ (["vendor", "brand", "manufacturer"] : List String) ∧
          (rowData.getD k .null).isMapped = true) := by
      intro k hkm hjk
      have := hk k (by simpa using hkm) hjk
      simpa using this
    have hres := foldl_last_write (["vendor", "brand", "manufacturer"] : List String)
      (fun q => q.vendor) (fun v => some v) hw hf headers 0 {} rowData j
      (by decide) (Nat.zero_le j) (by simpa using hj) (by simpa using hA) hm hk0
    have hsingle := hw {} (headers.getD j .null) (rowData.getD j .null) (by decide) hA hm
    exact hres.trans hsingle.symm
  · intro headers rowData j hj hA hm hk
    have hw : ∀ (q : Product) (h v : Value), q.variants ≠ [] →
        normHeader h ∈ (["product type", "type", "category"] : List String) →
        v.isMapped = true → (fun q => q.product_type) (applyHeader q h v) = some v := by
      intro q h v hq2 hA2 hm2
      have hh : normHeader h = "product type" ∨ normHeader h = "type" ∨ normHeader h = "category" := by simpa using hA2
      rw [applyHeader_product_type hm2 hh]
    have hf : ∀ (q : Product) (h v : Value),
        ¬(normHeader h ∈ (["product type", "type", "category"] : List String) ∧ v.isMapped = true) →
        (fun q => q.product_type) (applyHeader q h v) = (fun q => q.product_type) q := by
      intro q h v hn
      by_cases hm2 : v.isMapped = true
      · exact applyHeader_frame_product_type (fun hmem => hn ⟨hmem, hm2⟩)
      · rw [applyHeader_unmapped (Bool.not_eq_true _ |>.mp hm2)]
    have hk0 : ∀ k, k ∈ List.range (0 + headers.length) → j < k →
        ¬(normHeader (headers.getD (k - 0) .null) ∈ (["product type", "type", "category"] : List String) ∧
          (rowData.getD k .null).isMapped = true) := by
      intro k hkm hjk
      have := hk k (by simpa using hkm) hjk
      simpa using this
    have hres := foldl_last_write (["product type", "type", "category"] : List String)
      (fun q => q.product_type) (fun v => some v) hw hf headers 0 {} rowData j
      (by decide) (Nat.zero_le j) (by simpa using hj) (by simpa using hA) hm hk0
    have hsingle := hw {} (headers.getD j .null) (rowData.getD j .null) (by decide) hA hm
    exact hres.trans hsingle.symm
  · intro headers rowData j hj hA hm hk
    have hw : ∀ (q : Product) (h v : Value), q.variants ≠ [] →
        normHeader h ∈ (["tags", "keywords"] : List String) →
        v.isMapped = true → (fun q => q.tags) (applyHeader q h v) = some v := by
      intro q h v hq2 hA2 hm2
      have hh : normHeader h = "tags" ∨ normHeader h = "keywords" := by simpa using hA2
      rw [applyHeader_tags hm2 hh]
    have hf : ∀ (q : Product) (h v : Value),
        ¬(normHeader h ∈ (["tags", "keywords"] : List String) ∧ v.isMapped = true) →
        (fun q => q.tags) (applyHeader q h v) = (fun q => q.tags) q := by
      intro q h v hn
      by_cases hm2 : v.isMapped = true
      · exact applyHeader_frame_tags (fun hmem => hn ⟨hmem, hm2⟩)
      · rw [applyHeader_unmapped (Bool.not_eq_true _ |>.mp hm2)]
    have hk0 : ∀ k, k ∈ List.range (0 + headers.length) → j < k →
        ¬(normHeader (headers.getD (k - 0) .null) ∈ (["tags", "keywords"] : List String) ∧
          (rowData.getD k .null).isMapped = true) := by
      intro k hkm hjk
      have := hk k (by simpa using hkm) hjk
      simpa using this
    have hres := foldl_last_write (["tags", "keywords"] : List String)
      (fun q => q.tags) (fun v => some v) hw hf headers 0 {} rowData j
      (by decide) (Nat.zero_le j) (by simpa using hj) (by simpa using hA) hm hk0
    have hsingle := hw {} (headers.getD j .null) (rowData.getD j .null) (by decide) hA hm
    exact hres.trans hsingle.symm
  · intro headers rowData j hj hA hm hk
    have hw : ∀ (q : Product) (h v : Value), q.variants ≠ [] →
        normHeader h ∈ (["published", "status"] : List String) →
        v.isMapped = true → (fun q => q.published) (applyHeader q h v) = some (v == Value.bool true || v == Value.str "true" || v == Value.str "yes" || v == Value.str "published") := by
      intro q h v hq2 hA2 hm2
      have hh : normHeader h = "published" ∨ normHeader h = "status" := by simpa using hA2
      rw [applyHeader_published hm2 hh]
    have hf : ∀ (q : Product) (h v : Value),
        ¬(normHeader h ∈ (["published", "status"] : List String) ∧ v.isMapped = true) →
        (fun q => q.published) (applyHeader q h v) = (fun q => q.published) q := by
      intro q h v hn
      by_cases hm2 : v.isMapped = true
      · exact applyHeader_frame_published (fun hmem => hn ⟨hmem, hm2⟩)
      · rw [applyHeader_unmapped (Bool.not_eq_true _ |>.mp hm2)]
    have hk0 : ∀ k, k ∈ List.range (0 + headers.length) → j < k →
        ¬(normHeader (headers.getD (k - 0) .null) ∈ (["published", "status"] : List String) ∧
          (rowData.getD k .null).isMapped = true) := by
      intro k hkm hjk
      have := hk k (by simpa using hkm) hjk
      simpa using this
    have hres := foldl_last_write (["published", "status"] : List String)
      (fun q => q.published) (fun v => some (v == Value.bool true || v == Value.str "true" || v == Value.str "yes" || v == Value.str "published")) hw hf headers 0 {} rowData j
      (by decide) (Nat.zero_le j) (by simpa using hj) (by simpa using hA) hm hk0
    have hsingle := hw {} (headers.getD j .null) (rowData.getD j .null) (by decide) hA hm
    exact hres.trans hsingle.symm
  · intro headers rowData j hj hA hm hk
    have hw : ∀ (q : Product) (h v : Value), q.variants ≠ [] →
        normHeader h ∈ (["sku", "product code"] : List String) →
        v.isMapped = true → (fun q => (q.variants.headD {}).sku) (applyHeader q h v) = some v.toStr := by
      intro q h v hq2 hA2 hm2
      have hh : normHeader h = "sku" ∨ normHeader h = "product code" := by simpa using hA2
      rw [applyHeader_sku hm2 hh]
      cases hvv : q.variants with
      | nil => exact absurd hvv hq2
      | cons w ws => simp [hvv]
    have hf : ∀ (q : Product) (h v : Value),
        ¬(normHeader h ∈ (["sku", "product code"] : List String) ∧ v.isMapped = true) →
        (fun q => (q.variants.headD {}).sku) (applyHeader q h v) = (fun q => (q.variants.headD {}).sku) q := by
      intro q h v hn
      by_cases hm2 : v.isMapped = true
      · exact applyHeader_frame_sku (fun hmem => hn ⟨hmem, hm2⟩)
      · rw [applyHeader_unmapped (Bool.not_eq_true _ |>.mp hm2)]
    have hk0 : ∀ k, k ∈ List.range (0 + headers.length) → j < k →
        ¬(normHeader (headers.getD (k - 0) .null) ∈ (["sku", "product code"] : List String) ∧
          (rowData.getD k .null).isMapped = true) := by
      intro k hkm hjk
      have := hk k (by simpa using hkm) hjk
      simpa using this
    have hres := foldl_last_write (["sku", "product code"] : List String)
      (fun q => (q.variants.headD {}).sku) (fun v => some v.toStr) hw hf headers 0 {} rowData j
      (by decide) (Nat.zero_le j) (by simpa using hj) (by simpa using hA) hm hk0
    have hsingle := hw {} (headers.getD j .null) (rowData.getD j .null) (by decide) hA hm
    exact hres.trans hsingle.symm
  · intro headers rowData j hj hA hm hk
    have hw : ∀ (q : Product) (h v : Value), q.variants ≠ [] →
        normHeader h ∈ (["barcode", "upc", "ean", "isbn", "gtin"] : List String) →
        v.isMapped = true → (fun q => (q.variants.headD {}).barcode) (applyHeader q h v) = some v.toStr := by
      intro q h v hq2 hA2 hm2
      have hh : normHeader h = "barcode" ∨ normHeader h = "upc" ∨ normHeader h = "ean" ∨ normHeader h = "isbn" ∨ normHeader h = "gtin" := by simpa using hA2
      rw [applyHeader_barcode hm2 hh]
      cases hvv : q.variants with
      | nil => exact absurd hvv hq2
      | cons w ws => simp [hvv]
    have hf : ∀ (q : Product) (h v : Value),
        ¬(normHeader h ∈ (["barcode", "upc", "ean", "isbn", "gtin"] : List String) ∧ v.isMapped = true) →
        (fun q => (q.variants.headD {}).barcode) (applyHeader q h v) = (fun q => (q.variants.headD {}).barcode) q := by
      intro q h v hn
      by_cases hm2 : v.isMapped = true
      · exact applyHeader_frame_barcode (fun hmem => hn ⟨hmem, hm2⟩)
      · rw [applyHeader_unmapped (Bool.not_eq_true _ |>.mp hm2)]
    have hk0 : ∀ k, k ∈ List.range (0 + headers.length) → j < k →
        ¬(normHeader (headers.getD (k - 0) .null) ∈ (["barcode", "upc", "ean", "isbn", "gtin"] : List String) ∧
          (rowData.getD k .null).isMapped = true) := by
      intro k hkm hjk
      have := hk k (by simpa using hkm) hjk
      simpa using this
    have hres := foldl_last_write (["barcode", "upc", "ean", "isbn", "gtin"] : List String)
      (fun q => (q.variants.headD {}).barcode) (fun v => some v.toStr) hw hf headers 0 {} rowData j
      (by decide) (Nat.zero_le j) (by simpa using hj) (by simpa using hA) hm hk0
    have hsingle := hw {} (headers.getD j .null) (rowData.getD j .null) (by decide) hA hm
    exact hres.trans hsingle.symm
  · intro headers rowData j hj hA hm hk
    have hw : ∀ (q : Product) (h v : Value), q.variants ≠ [] →
        normHeader h ∈ (["price", "retail price"] : List String) →
        v.isMapped = true → (fun q => (q.variants.headD {}).price) (applyHeader q h v) = some v.toStr := by
      intro q h v hq2 hA2 hm2
      have hh : normHeader h = "price" ∨ normHeader h = "retail price" := by simpa using hA2
      rw [applyHeader_price hm2 hh]
      cases hvv : q.variants with
      | nil => exact absurd hvv hq2
      | cons w ws => simp [hvv]
    have hf : ∀ (q : Product) (h v : Value),
        ¬(normHeader h ∈ (["price", "retail price"] : List String) ∧ v.isMapped = true) →
        (fun q => (q.variants.headD {}).price) (applyHeader q h v) = (fun q => (q.variants.headD {}).price) q := by
      intro q h v hn
      by_cases hm2 : v.isMapped = true
      · exact applyHeader_frame_price (fun hmem => hn ⟨hmem, hm2⟩)
      · rw [applyHeader_unmapped (Bool.not_eq_true _ |>.mp hm2)]
    have hk0 : ∀ k, k ∈ List.range (0 + headers.length) → j < k →
        ¬(normHeader (headers.getD (k - 0) .null) ∈ (["price", "retail price"] : List String) ∧
          (rowData.getD k .null).isMapped = true) := by
      intro k hkm hjk
      have := hk k (by simpa using hkm) hjk
      simpa using this
    have hres := foldl_last_write (["price", "retail price"] : List String)
      (fun q => (q.variants.headD {}).price) (fun v => some v.toStr) hw hf headers 0 {} rowData j
      (by decide) (Nat.zero_le j) (by simpa using hj) (by simpa using hA) hm hk0
    have hsingle := hw {} (headers.getD j .null) (rowData.getD j .null) (by decide) hA hm
    exact hres.trans hsingle.symm
  · intro headers rowData j hj hA hm hk
    have hw : ∀ (q : Product) (h v : Value), q.variants ≠ [] →
        normHeader h ∈ (["compare at price", "compare price", "msrp"] : List String) →
        v.isMapped = true → (fun q => (q.variants.headD {}).compare_at_price) (applyHeader q h v) = some v.toStr := by
      intro q h v hq2 hA2 hm2
      have hh : normHeader h = "compare at price" ∨ normHeader h = "compare price" ∨ normHeader h = "msrp" := by simpa using hA2
      rw [applyHeader_compare_at_price hm2 hh]
      cases hvv : q.variants with
      | nil => exact absurd hvv hq2
      | cons w ws => simp [hvv]
    have hf : ∀ (q : Product) (h v : Value),
        ¬(normHeader h ∈ (["compare at price", "compare price", "msrp"] : List String) ∧ v.isMapped = true) →
        (fun q => (q.variants.headD {}).compare_at_price) (applyHeader q h v) = (fun q => (q.variants.headD {}).compare_at_price) q := by
      intro q h v hn
      by_cases hm2 : v.isMapped = true
      · exact applyHeader_frame_compare_at_price (fun hmem => hn ⟨hmem, hm2⟩)
      · rw [applyHeader_unmapped (Bool.not_eq_true _ |>.mp hm2)]
    have hk0 : ∀ k, k ∈ List.range (0 + headers.length) → j < k →
        ¬(normHeader (headers.getD (k - 0) .null) ∈ (["compare at price", "compare price", "msrp"] : List String) ∧
          (rowData.getD k .null).isMapped = true) := by
      intro k hkm hjk
      have := hk k (by simpa using hkm) hjk
      simpa using this
    have hres := foldl_last_write (["compare at price", "compare price", "msrp"] : List String)
      (fun q => (q.variants.headD {}).compare_at_price) (fun v => some v.toStr) hw hf headers 0 {} rowData j
      (by decide) (Nat.zero_le j) (by simpa using hj) (by simpa using hA) hm hk0
    have hsingle := hw {} (headers.getD j .null) (rowData.getD j .null) (by decide) hA hm
    exact hres.trans hsingle.symm
  · intro headers rowData j hj hA hm hk
    have hw : ∀ (q : Product) (h v : Value), q.variants ≠ [] →
        normHeader h ∈ (["cost", "cost price"] : List String) →
        v.isMapped = true → (fun q => (q.variants.headD {}).cost) (applyHeader q h v) = some v.toStr := by
      intro q h v hq2 hA2 hm2
      have hh : normHeader h = "cost" ∨ normHeader h = "cost price" := by simpa using hA2
      rw [applyHeader_cost hm2 hh]
      cases hvv : q.variants with
      | nil => exact absurd hvv hq2
      | cons w ws => simp [hvv]
    have hf : ∀ (q : Product) (h v : Value),
        ¬(normHeader h ∈ (["cost", "cost price"] : List String) ∧ v.isMapped = true) →
        (fun q => (q.variants.headD {}).cost) (applyHeader q h v) = (fun q => (q.variants.headD {}).cost) q := by
      intro q h v hn
      by_cases hm2 : v.isMapped = true
      · exact applyHeader_frame_cost (fun hmem => hn ⟨hmem, hm2⟩)
      · rw [applyHeader_unmapped (Bool.not_eq_true _ |>.mp hm2)]
    have hk0 : ∀ k, k ∈ List.range (0 + headers.length) → j < k →
        ¬(normHeader (headers.getD (k - 0) .null) ∈ (["cost", "cost price"] : List String) ∧
          (rowData.getD k .null).isMapped = true) := by
      intro k hkm hjk
      have := hk k (by simpa using hkm) hjk
      simpa using this
    have hres := foldl_last_write (["cost", "cost price"] : List String)
      (fun q => (q.variants.headD {}).cost) (fun v => some v.toStr) hw hf headers 0 {} rowData j
      (by decide) (Nat.zero_le j) (by simpa using hj) (by simpa using hA) hm hk0
    have hsingle := hw {} (headers.getD j .null) (rowData.getD j .null) (by decide) hA hm
    exact hres.trans hsingle.symm
  · intro headers rowData j hj hA hm hk
    have hw : ∀ (q : Product) (h v : Value), q.variants ≠ [] →
        normHeader h ∈ (["inventory", "quantity", "stock"] : List String) →
        v.isMapped = true → (fun q => (q.variants.headD {}).inventory_quantity) (applyHeader q h v) = some ((jsParseInt v).getD 0) := by
      intro q h v hq2 hA2 hm2
      have hh : normHeader h = "inventory" ∨ normHeader h = "quantity" ∨ normHeader h = "stock" := by simpa using hA2
      rw [applyHeader_inventory hm2 hh]
      cases hvv : q.variants with
      | nil => exact absurd hvv hq2
      | cons w ws => simp [hvv]
    have hf : ∀ (q : Product) (h v : Value),
        ¬(normHeader h ∈ (["inventory", "quantity", "stock"] : List String) ∧ v.isMapped = true) →
        (fun q => (q.variants.headD {}).inventory_quantity) (applyHeader q h v) = (fun q => (q.variants.headD {}).inventory_quantity) q := by
      intro q h v hn
      by_cases hm2 : v.isMapped = true
      · exact applyHeader_frame_inventory_quantity (fun hmem => hn ⟨hmem, hm2⟩)
      · rw [applyHeader_unmapped (Bool.not_eq_true _ |>.mp hm2)]
    have hk0 : ∀ k, k ∈ List.range (0 + headers.length) → j < k →
        ¬(normHeader (headers.getD (k - 0) .null) ∈ (["inventory", "quantity", "stock"] : List String) ∧
          (rowData.getD k .null).isMapped = true) := by
      intro k hkm hjk
      have := hk k (by simpa using hkm) hjk
      simpa using this
    have hres := foldl_last_write (["inventory", "quantity", "stock"] : List String)
      (fun q => (q.variants.headD {}).inventory_quantity) (fun v => some ((jsParseInt v).getD 0)) hw hf headers 0 {} rowData j
      (by decide) (Nat.zero_le j) (by simpa using hj) (by simpa using hA) hm hk0
    have hsingle := hw {} (headers.getD j .null) (rowData.getD j .null) (by decide) hA hm
    exact hres.trans hsingle.symm
  · intro headers rowData j hj hA hm hk
    have hw : ∀ (q : Product) (h v : Value), q.variants ≠ [] →
        normHeader h ∈ (["weight"] : List String) →
        v.isMapped = true → (fun q => (q.variants.headD {}).weight) (applyHeader q h v) = some ((jsParseFloat v).getD 0) := by
      intro q h v hq2 hA2 hm2
      have hh : normHeader h = "weight" := by simpa using hA2
      rw [applyHeader_weight hm2 hh]
      cases hvv : q.variants with
      | nil => exact absurd hvv hq2
      | cons w ws => simp [hvv]
    have hf : ∀ (q : Product) (h v : Value),
        ¬(normHeader h ∈ (["weight"] : List String) ∧ v.isMapped = true) →
        (fun q => (q.variants.headD {}).weight) (applyHeader q h v) = (fun q => (q.variants.headD {}).weight) q := by
      intro q h v hn
      by_cases hm2 : v.isMapped = true
      · exact applyHeader_frame_weight (fun hmem => hn ⟨hmem, hm2⟩)
      · rw [applyHeader_unmapped (Bool.not_eq_true _ |>.mp hm2)]
    have hk0 : ∀ k, k ∈ List.range (0 + headers.length) → j < k →
        ¬(normHeader (headers.getD (k - 0) .null) ∈ (["weight"] : List String) ∧
          (rowData.getD k .null).isMapped = true) := by
      intro k hkm hjk
      have := hk k (by simpa using hkm) hjk
      simpa using this
    have hres := foldl_last_write (["weight"] : List String)
      (fun q => (q.variants.headD {}).weight) (fun v => some ((jsParseFloat v).getD 0)) hw hf headers 0 {} rowData j
      (by decide) (Nat.zero_le j) (by simpa using hj) (by simpa using hA) hm hk0
    have hsingle := hw {} (headers.getD j .null) (rowData.getD j .null) (by decide) hA hm
    exact hres.trans hsingle.symm
  · intro headers rowData j hj hA hm hk
    have hw : ∀ (q : Product) (h v : Value), q.variants ≠ [] →
        normHeader h ∈ (["weight unit"] : List String) →
        v.isMapped = true → (fun q => (q.variants.headD {}).weight_unit) (applyHeader q h v) = some v := by
      intro q h v hq2 hA2 hm2
      have hh : normHeader h = "weight unit" := by simpa using hA2
      rw [applyHeader_weight_unit hm2 hh]
      cases hvv : q.variants with
      | nil => exact absurd hvv hq2
      | cons w ws => simp [hvv]
    have hf : ∀ (q : Product) (h v : Value),
        ¬(normHeader h ∈ (["weight unit"] : List String) ∧ v.isMapped = true) →
        (fun q => (q.variants.headD {}).weight_unit) (applyHeader q h v) = (fun q => (q.variants.headD {}).weight_unit) q := by
      intro q h v hn
      by_cases hm2 : v.isMapped = true
      · exact applyHeader_frame_weight_unit (fun hmem => hn ⟨hmem, hm2⟩)
      · rw [applyHeader_unmapped (Bool.not_eq_true _ |>.mp hm2)]
    have hk0 : ∀ k, k ∈ List.range (0 + headers.length) → j < k →
        ¬(normHeader (headers.getD (k - 0) .null) ∈ (["weight unit"] : List String) ∧
          (rowData.getD k .null).isMapped = true) := by
      intro k hkm hjk
      have := hk k (by simpa using hkm) hjk
      simpa using this
    have hres := foldl_last_write (["weight unit"] : List String)
      (fun q => (q.variants.headD {}).weight_unit) (fun v => some v) hw hf headers 0 {} rowData j
      (by decide) (Nat.zero_le j) (by simpa using hj) (by simpa using hA) hm hk0
    have hsingle := hw {} (headers.getD j .null) (rowData.getD j .null) (by decide) hA hm
    exact hres.trans hsingle.symm
  · intro headers rowData j hj hA hm hk
    have hw : ∀ (q : Product) (h v : Value), q.variants ≠ [] →
        normHeader h ∈ (["option1", "size"] : List String) →
        v.isMapped = true → (fun q => (q.variants.headD {}).option1) (applyHeader q h v) = some v.toStr := by
      intro q h v hq2 hA2 hm2
      have hh : normHeader h = "option1" ∨ normHeader h = "size" := by simpa using hA2
      cases ho : q.options with
      | none =>
        rw [applyHeader_option1_none hm2 hh ho]
        cases hvv : q.variants with
        | nil => exact absurd hvv hq2
        | cons w ws => simp [hvv]
      | some opts =>
        rw [applyHeader_option1_some hm2 hh ho]
        cases hvv : q.variants with
        | nil => exact absurd hvv hq2
        | cons w ws => simp [hvv]
    have hf : ∀ (q : Product) (h v : Value),
        ¬(normHeader h ∈ (["option1", "size"] : List String) ∧ v.isMapped = true) →
        (fun q => (q.variants.headD {}).option1) (applyHeader q h v) = (fun q => (q.variants.headD {}).option1) q := by
      intro q h v hn
      by_cases hm2 : v.isMapped = true
      · exact applyHeader_frame_option1 (fun hmem => hn ⟨hmem, hm2⟩)
      · rw [applyHeader_unmapped (Bool.not_eq_true _ |>.mp hm2)]
    have hk0 : ∀ k, k ∈ List.range (0 + headers.length) → j < k →
        ¬(normHeader (headers.getD (k - 0) .null) ∈ (["option1", "size"] : List String) ∧
          (rowData.getD k .null).isMapped = true) := by
      intro k hkm hjk
      have := hk k (by simpa using hkm) hjk
      simpa using this
    have hres := foldl_last_write (["option1", "size"] : List String)
      (fun q => (q.variants.headD {}).option1) (fun v => some v.toStr) hw hf headers 0 {} rowData j
      (by decide) (Nat.zero_le j) (by simpa using hj) (by simpa using hA) hm hk0
    have hsingle := hw {} (headers.getD j .null) (rowData.getD j .null) (by decide) hA hm
    exact hres.trans hsingle.symm
  · intro headers rowData j hj hA hm hk
    have hw : ∀ (q : Product) (h v : Value), q.variants ≠ [] →
        normHeader h ∈ (["option2", "color"] : List String) →
        v.isMapped = true → (fun q => (q.variants.headD {}).option2) (applyHeader q h v) = some v.toStr := by
      intro q h v hq2 hA2 hm2
      have hh : normHeader h = "option2" ∨ normHeader h = "color" := by simpa using hA2
      cases ho : q.options with
      | none =>
        rw [applyHeader_option2_none hm2 hh ho]
        cases hvv : q.variants with
        | nil => exact absurd hvv hq2
        | cons w ws => simp [hvv]
      | some opts =>
        rw [applyHeader_option2_some hm2 hh ho]
        cases hvv : q.variants with
        | nil => exact absurd hvv hq2
        | cons w ws => simp [hvv]
    have hf : ∀ (q : Product) (h v : Value),
        ¬(normHeader h ∈ (["option2", "color"] : List String) ∧ v.isMapped = true) →
        (fun q => (q.variants.headD {}).option2) (applyHeader q h v) = (fun q => (q.variants.headD {}).option2) q := by
      intro q h v hn
      by_cases hm2 : v.isMapped = true
      · exact applyHeader_frame_option2 (fun hmem => hn ⟨hmem, hm2⟩)
      · rw [applyHeader_unmapped (Bool.not_eq_true _ |>.mp hm2)]
    have hk0 : ∀ k, k ∈ List.range (0 + headers.length) → j < k →
        ¬(normHeader (headers.getD (k - 0) .null) ∈ (["option2", "color"] : List String) ∧
          (rowData.getD k .null).isMapped = true) := by
      intro k hkm hjk
      have := hk k (by simpa using hkm) hjk
      simpa using this
    have hres := foldl_last_write (["option2", "color"] : List String)
      (fun q => (q.variants.headD {}).option2) (fun v => some v.toStr) hw hf headers 0 {} rowData j
      (by decide) (Nat.zero_le j) (by simpa using hj) (by simpa using hA) hm hk0
    have hsingle := hw {} (headers.getD j .null) (rowData.getD j .null) (by decide) hA hm
    exact hres.trans hsingle.symm

/-- Witness for the amended C2 at a concrete input: the later of two
title-alias columns determines the title, with an unrelated column after. -/
theorem C2_last_write_wins_amended_witness :
    (mapRowToProduct [.str "Title", .str "Name", .str "Barcode"] [.str "A", .str "B", .str "X"]).title =
      (applyHeader {} (.str "Name") (.str "B")).title ∧
    (applyHeader {} (.str "Name") (.str "B")).title = some (.str "B") := by
  constructor
  · exact C2_last_write_wins_amended.1 [.str "Title", .str "Name", .str "Barcode"]
      [.str "A", .str "B", .str "X"] 1 (by decide) (by decide) (by decide) (by decide)
  · decide

/-- C3: when new rows exist, every non-empty row in the range gets a written
outcome regardless of what happens on any other row; a raised exception, a
validation failure, or a remote failure on a row is recorded as an
"ERROR: ..." outcome for that row; and the watermark is set to the
current last row no matter how many rows errored. -/
theorem C3_row_failure_containment :
    ∀ (data : List (List Value)) (w : Nat) (env : Nat → RowEvent) (now : String),
      w < data.length →
      (checkForNewProducts data w env now).newWatermark = data.length ∧
      (∀ r, w < r → r ≤ data.length → rowIsEmpty (data.getD (r - 1) []) = false →
        ∃ s, (r, s) ∈ (checkForNewProducts data w env now).writes) ∧
      (∀ r msg, w < r → r ≤ data.length → rowIsEmpty (data.getD (r - 1) []) = false →
        env r = .raise msg →
        (r, "ERROR: " ++ msg) ∈ (checkForNewProducts data w env now).writes) ∧
      (∀ r f e, w < r → r ≤ data.length → rowIsEmpty (data.getD (r - 1) []) = false →
        env r = .fetch f →
        isValidProduct (mapRowToProduct (data.headD []) (data.getD (r - 1) [])) = true →
        createShopifyProduct f = .failure e →
        (r, "ERROR: " ++ e) ∈ (checkForNewProducts data w env now).writes) := by
  intro data w env now hw
  refine ⟨check_newWatermark hw, ?_, ?_, ?_⟩
  · intro r hr1 hr2 hemp
    cases henv : env r with
    | raise msg =>
      exact ⟨"ERROR: " ++ msg,
        check_writes_mem.mpr ⟨hr1, hr2, by rw [henv, processRow_raise hemp]⟩⟩
    | fetch f =>
      by_cases hv : isValidProduct (mapRowToProduct (data.headD []) (data.getD (r - 1) [])) = true
      · cases hc : createShopifyProduct f with
        | success id d =>
          exact ⟨"Synced: " ++ now ++ " (ID: " ++ toString id ++ ")",
            check_writes_mem.mpr ⟨hr1, hr2, by rw [henv, processRow_success hemp hv hc]⟩⟩
        | failure e =>
          exact ⟨"ERROR: " ++ e,
            check_writes_mem.mpr ⟨hr1, hr2, by rw [henv, processRow_failure hemp hv hc]⟩⟩
      · rw [Bool.not_eq_true] at hv
        exact ⟨"ERROR: " ++ ("Row " ++ toString r ++ ": Invalid product data (missing required fields)"),
          check_writes_mem.mpr ⟨hr1, hr2, by rw [henv, processRow_invalid hemp hv]⟩⟩
  · intro r msg hr1 hr2 hemp henv
    exact check_writes_mem.mpr ⟨hr1, hr2, by rw [henv, processRow_raise hemp]⟩
  · intro r f e hr1 hr2 hemp henv hv hc
    exact check_writes_mem.mpr ⟨hr1, hr2, by rw [henv, processRow_failure hemp hv hc]⟩

/-- Witness for C3 at a concrete input: a raised exception on the only new
row is recorded and the watermark still advances. -/
theorem C3_row_failure_containment_witness :
    (checkForNewProducts [[Value.str "Title"], [Value.str "Shirt"]] 1
      (fun _ => .raise "boom") "t").newWatermark = 2 ∧
    (2, "ERROR: " ++ "boom") ∈ (checkForNewProducts [[Value.str "Title"], [Value.str "Shirt"]] 1
      (fun _ => .raise "boom") "t").writes := by
  have h := C3_row_failure_containment [[Value.str "Title"], [Value.str "Shirt"]] 1
    (fun _ => .raise "boom") "t" (by decide)
  exact ⟨h.1, h.2.2.1 2 "boom" (by decide) (by decide) (by decide) rfl⟩

/-- C4: the watermark never decreases; a pass with no new rows is a no-op
(no writes, no remote calls, watermark unchanged); and a second pass over
the same sheet right after any pass is always such a no-op. -/
theorem C4_watermark_monotone :
    (∀ (data : List (List Value)) (w : Nat) (env : Nat → RowEvent) (now : String),
      w ≤ (checkForNewProducts data w env now).newWatermark) ∧
    (∀ (data : List (List Value)) (w : Nat) (env : Nat → RowEvent) (now : String),
      data.length ≤ w → checkForNewProducts data w env now = ⟨w, [], []⟩) ∧
    (∀ (data : List (List Value)) (w : Nat) (env1 : Nat → RowEvent) (now1 : String)
        (env2 : Nat → RowEvent) (now2 : String),
      checkForNewProducts data (checkForNewProducts data w env1 now1).newWatermark env2 now2 =
        ⟨(checkForNewProducts data w env1 now1).newWatermark, [], []⟩) := by
  have hlen : ∀ (data : List (List Value)) (w : Nat) (env : Nat → RowEvent) (now : String),
      data.length ≤ (checkForNewProducts data w env now).newWatermark := by
    intro data w env now
    by_cases hw : w < data.length
    · rw [check_newWatermark hw]
    · rw [check_noop (Nat.not_lt.mp hw)]
      exact Nat.not_lt.mp hw
  refine ⟨?_, fun data w env now h => check_noop h, ?_⟩
  · intro data w env now
    by_cases hw : w < data.length
    · rw [check_newWatermark hw]; exact Nat.le_of_lt hw
    · rw [check_noop (Nat.not_lt.mp hw)]
  · intro data w env1 now1 env2 now2
    exact check_noop (hlen data w env1 now1)

/-- Witness for C4 at a concrete input. -/
theorem C4_watermark_monotone_witness :
    checkForNewProducts [[Value.str "Title"]] 1 (fun _ => .raise "x") "t" = ⟨1, [], []⟩ :=
  C4_watermark_monotone.2.1 [[Value.str "Title"]] 1 (fun _ => .raise "x") "t" (by decide)

/-- C9: a row in the processed range whose cells join to an all-whitespace
string gets no written outcome and no remote call, yet the watermark still
advances to the current last row, covering it. -/
theorem C9_empty_rows_covered :
    ∀ (data : List (List Value)) (w : Nat) (env : Nat → RowEvent) (now : String) (r : Nat),
      w < r → r ≤ data.length → rowIsEmpty (data.getD (r - 1) []) = true →
      (∀ s, (r, s) ∉ (checkForNewProducts data w env now).writes) ∧
      r ∉ (checkForNewProducts data w env now).calledRows ∧
      (checkForNewProducts data w env now).newWatermark = data.length := by
  intro data w env now r hr1 hr2 hemp
  refine ⟨?_, ?_, check_newWatermark (lt_of_lt_of_le hr1 hr2)⟩
  · intro s hmem
    obtain ⟨-, -, hwr⟩ := check_writes_mem.mp hmem
    rw [processRow_empty hemp] at hwr
    cases hwr
  · intro hmem
    obtain ⟨-, -, hcall⟩ := check_called_mem.mp hmem
    rw [processRow_empty hemp] at hcall
    cases hcall

/-- Witness for C9 at a concrete input: an all-whitespace row. -/
theorem C9_empty_rows_covered_witness :
    (∀ s, (2, s) ∉ (checkForNewProducts [[Value.str "Title"], [Value.str " ", Value.null]] 1
      (fun _ => .raise "x") "t").writes) ∧
    2 ∉ (checkForNewProducts [[Value.str "Title"], [Value.str " ", Value.null]] 1
      (fun _ => .raise "x") "t").calledRows ∧
    (checkForNewProducts [[Value.str "Title"], [Value.str " ", Value.null]] 1
      (fun _ => .raise "x") "t").newWatermark = 2 :=
  C9_empty_rows_covered [[Value.str "Title"], [Value.str " ", Value.null]] 1
    (fun _ => .raise "x") "t" 2 (by decide) (by decide) (by decide)

/-- C7: the validator accepts exactly the products whose title is present
and non-falsy; and in the sync loop an invalid non-empty row gets the
invalid-product error written and no remote create call. -/
theorem C7_validator_gate :
    (∀ p : Product, isValidProduct p = true ↔ ∃ v, p.title = some v ∧ v.isFalsy = false) ∧
    (∀ (data : List (List Value)) (w : Nat) (env : Nat → RowEvent) (now : String)
        (r : Nat) (f : FetchOutcome),
      w < r → r ≤ data.length → rowIsEmpty (data.getD (r - 1) []) = false →
      env r = .fetch f →
      isValidProduct (mapRowToProduct (data.headD []) (data.getD (r - 1) [])) = false →
      (r, "ERROR: " ++ ("Row " ++ toString r ++ ": Invalid product data (missing required fields)")) ∈
          (checkForNewProducts data w env now).writes ∧
        r ∉ (checkForNewProducts data w env now).calledRows) := by
  constructor
  · intro p
    cases hp : p.title with
    | none => simp [isValidProduct, hp]
    | some v => cases hf : v.isFalsy <;> simp [isValidProduct, hp, hf]
  · intro data w env now r f hr1 hr2 hemp henv hv
    constructor
    · exact check_writes_mem.mpr ⟨hr1, hr2, by rw [henv, processRow_invalid hemp hv]⟩
    · intro hmem
      obtain ⟨-, -, hcall⟩ := check_called_mem.mp hmem
      rw [henv, processRow_invalid hemp hv] at hcall
      cases hcall

/-- Witness for C7: the empty-title, populated-barcode row. -/
theorem C7_validator_gate_witness :
    (2, "ERROR: " ++ ("Row " ++ toString 2 ++ ": Invalid product data (missing required fields)")) ∈
      (checkForNewProducts [[Value.str "Title", Value.str "Barcode"], [Value.str "", Value.str "012345"]] 1
        (fun _ => .fetch (.ok 200 ⟨some ⟨7⟩, "ok"⟩)) "t").writes ∧
    2 ∉ (checkForNewProducts [[Value.str "Title", Value.str "Barcode"], [Value.str "", Value.str "012345"]] 1
        (fun _ => .fetch (.ok 200 ⟨some ⟨7⟩, "ok"⟩)) "t").calledRows :=
  C7_validator_gate.2 [[Value.str "Title", Value.str "Barcode"], [Value.str "", Value.str "012345"]] 1
    (fun _ => .fetch (.ok 200 ⟨some ⟨7⟩, "ok"⟩)) "t" 2 (.ok 200 ⟨some ⟨7⟩, "ok"⟩)
    (by decide) (by decide) (by decide) rfl (by decide)

/-- C8: createShopifyProduct is total (always a structured result), returns
success exactly when the HTTP code is in [200, 300) and the body has a
product object, and returns the stringified exception or the API Error
string in every other case. -/
theorem C8_create_classification :
    (∀ f : FetchOutcome,
      (∃ id d, createShopifyProduct f = .success id d) ∨
      (∃ e, createShopifyProduct f = .failure e)) ∧
    (∀ (f : FetchOutcome) (id : Int) (d : RemoteProduct),
      createShopifyProduct f = .success id d ↔
        ∃ code body, f = .ok code body ∧ 200 ≤ code ∧ code < 300 ∧
          body.product = some d ∧ id = d.id) ∧
    (∀ msg, createShopifyProduct (.thrown msg) = .failure msg) ∧
    (∀ (code : Int) (body : ResponseBody), ¬(200 ≤ code ∧ code < 300) →
      createShopifyProduct (.ok code body) =
        .failure ("API Error (" ++ toString code ++ "): " ++ body.raw)) ∧
    (∀ (code : Int) (body : ResponseBody), 200 ≤ code → code < 300 → body.product = none →
      createShopifyProduct (.ok code body) =
        .failure ("API Error (" ++ toString code ++ "): " ++ body.raw)) := by
  refine ⟨?_, ?_, fun msg => rfl, ?_, ?_⟩
  · intro f
    cases f with
    | thrown msg => exact Or.inr ⟨msg, rfl⟩
    | ok code body =>
      by_cases hc : 200 ≤ code ∧ code < 300
      · cases hp : body.product with
        | none =>
          exact Or.inr ⟨"API Error (" ++ toString code ++ "): " ++ body.raw,
            by simp [createShopifyProduct, hc, hp]⟩
        | some rp => exact Or.inl ⟨rp.id, rp, by simp [createShopifyProduct, hc, hp]⟩
      · exact Or.inr ⟨"API Error (" ++ toString code ++ "): " ++ body.raw,
          by simp [createShopifyProduct, hc]⟩
  · intro f id d
    constructor
    · intro h
      cases f with
      | thrown msg => simp [createShopifyProduct] at h
      | ok code body =>
        by_cases hc : 200 ≤ code ∧ code < 300
        · cases hp : body.product with
          | none => simp [createShopifyProduct, hc, hp] at h
          | some rp =>
            simp [createShopifyProduct, hc, hp] at h
            obtain ⟨h1, h2⟩ := h
            subst h1
            subst h2
            exact ⟨code, body, rfl, hc.1, hc.2, hp, rfl⟩
        · simp [createShopifyProduct, hc] at h
    · rintro ⟨code, body, rfl, hle, hlt, hp, rfl⟩
      have hc : 200 ≤ code ∧ code < 300 := ⟨hle, hlt⟩
      simp [createShopifyProduct, hc, hp]
  · intro code body hc
    simp [createShopifyProduct, hc]
  · intro code body hle hlt hp
    have hc : 200 ≤ code ∧ code < 300 := ⟨hle, hlt⟩
    simp [createShopifyProduct, hc, hp]

/-- Witness for C8: the HTTP 422 scenario produces the structured API
Error failure. -/
theorem C8_create_classification_witness :
    createShopifyProduct (.ok 422 ⟨none, "errors"⟩) =
      .failure ("API Error (" ++ toString (422 : Int) ++ "): " ++ "errors") :=
  C8_create_classification.2.2.2.1 422 ⟨none, "errors"⟩ (by decide)
